import Mathlib

/-!
Verification of the libsignal-client core spec against a shallow embedding of
the sources:

* `src/rust/message-backup/src/backup.rs` — the streaming backup validator
  (`PartialBackup`, in its two modes `Store` and `ValidateOnly`), the
  `Purpose` enum, and its error taxonomy.
* `src/rust/net/src/chat/server_requests.rs` — the server-push demultiplexer.
* `src/rust/net/src/enclave.rs` — enclave URL-path construction and the
  connection driver's outcome handling.

Machine integers are modelled as `Nat` (overflow is made explicit where it
matters), byte strings as `List Nat`, fallible code as `Option`/`Except`, and
imperative handlers as state-passing functions that return the (possibly
unchanged) state alongside the error verdict.

Modules of the repository that are referenced by `backup.rs` but are not part
of the sources (`backup/method.rs`, `backup/chat.rs`, `backup/recipient.rs`,
`backup/account_data.rs`, `backup/call.rs`, `backup/sticker.rs`, and the
`infra` connection-manager layer of the `net` crate) are modelled from the
spec; each such definition carries a doc comment starting with
`Modelled from the spec:`.
-/

namespace MessageBackup

/-- `RecipientId` — opaque integer key for recipients (frame.rs). -/
abbrev RecipientId := Nat

/-- `ChatId` — opaque integer key for chats (frame.rs). -/
abbrev ChatId := Nat

/-- `CallId` — opaque integer key for calls (frame.rs). -/
abbrev CallId := Nat

/-- `proto::BackupInfo`: format version and backup start time in ms. -/
structure BackupInfo where
  version : Nat
  backupTimeMs : Nat
deriving DecidableEq

/-- `Purpose` (backup.rs lines 59-85): why a backup exists. -/
inductive Purpose where
  | deviceTransfer
  | remoteBackup
deriving DecidableEq

/-- `BackupMeta` (backup.rs lines 49-57). `Timestamp` is modelled as the
raw millisecond count. -/
structure BackupMeta where
  version : Nat
  backupTime : Nat
  purpose : Purpose
deriving DecidableEq

/-- Modelled from the spec: `proto::AccountData` payload and the fallible
conversion implemented in the missing `backup/account_data.rs`; the
conversion's success is abstracted by the `convOk` flag. -/
structure AccountDataProto where
  convOk : Bool
deriving DecidableEq

/-- Modelled from the spec: `proto::Recipient` carries its `RecipientId`;
the fallible conversion of the missing `backup/recipient.rs` is abstracted
by `convOk`. -/
structure RecipientProto where
  id : RecipientId
  convOk : Bool
deriving DecidableEq

/-- `proto::Chat`: a chat id plus the referenced recipient id. -/
structure ChatProto where
  id : ChatId
  recipientId : RecipientId
deriving DecidableEq

/-- Modelled from the spec: the `Call` produced as a by-product of a
`ChatItem`, keyed by its `CallId` (missing `backup/call.rs`). -/
structure CallProto where
  callId : CallId
deriving DecidableEq

/-- `proto::ChatItem`: chat and author foreign keys plus the optional
embedded call. -/
structure ChatItemProto where
  chatId : ChatId
  authorId : RecipientId
  call : Option CallProto
deriving DecidableEq

/-- Modelled from the spec: `proto::StickerPack` has a raw `packId` byte
string (valid iff it parses to the fixed 16-byte identifier) and contents
whose fallible conversion (missing `backup/sticker.rs`) is abstracted by
`convOk`. -/
structure StickerPackProto where
  packId : List Nat
  convOk : Bool
deriving DecidableEq

/-- `proto::frame::Item` — the oneof payload of a frame (backup.rs line 18). -/
inductive FrameItem where
  | account (a : AccountDataProto)
  | recipient (r : RecipientProto)
  | chat (c : ChatProto)
  | chatItem (ci : ChatItemProto)
  | stickerPack (sp : StickerPackProto)
deriving DecidableEq

/-- `proto::Frame`: the oneof may be empty. -/
structure Frame where
  item : Option FrameItem
deriving DecidableEq

/-- Modelled from the spec: `AccountDataError` of the missing
`backup/account_data.rs`, collapsed to one abstract conversion error. -/
inductive AccountDataError where
  | convError
deriving DecidableEq

/-- Modelled from the spec: `RecipientError` of the missing
`backup/recipient.rs`: `DuplicateRecipient` plus an abstract conversion
error. -/
inductive RecipientError where
  | duplicateRecipient
  | convError
deriving DecidableEq

/-- Modelled from the spec: `ChatItemError` of the missing `backup/chat.rs`:
`NoChatForItem`, and the author foreign-key failure whose display (per the
in-source tests) contains "no record". -/
inductive ChatItemError where
  | noChatForItem
  | authorNotFound (id : RecipientId)
deriving DecidableEq

/-- Modelled from the spec: `ChatError` of the missing `backup/chat.rs`:
`DuplicateId`, the unknown-recipient conversion failure, and wrapped
chat-item errors. -/
inductive ChatError where
  | duplicateId
  | noRecipient (id : RecipientId)
  | chatItem (e : ChatItemError)
deriving DecidableEq

/-- Modelled from the spec: `CallError` of the missing `backup/call.rs`. -/
inductive CallError where
  | duplicateId
deriving DecidableEq

/-- Modelled from the spec: `StickerPackError` of the missing
`backup/sticker.rs`, collapsed to one abstract conversion error. -/
inductive StickerPackError where
  | convError
deriving DecidableEq

/-- `StickerError` (backup.rs lines 169-177). -/
inductive StickerError where
  | invalidId
  | duplicateId (id : List Nat)
  | packError (id : List Nat) (e : StickerPackError)
deriving DecidableEq

/-- `ValidationError` (backup.rs lines 109-125); `RecipientFrameError`,
`ChatFrameError` and `CallFrameError` are inlined as the id-carrying
constructors. -/
inductive ValidationError where
  | emptyFrame
  | multipleAccountData
  | accountData (e : AccountDataError)
  | recipientError (id : RecipientId) (e : RecipientError)
  | chatError (id : ChatId) (e : ChatError)
  | callError (id : CallId) (e : CallError)
  | stickerError (e : StickerError)
deriving DecidableEq

/-- Association-list lookup used to model `HashMap` membership and the
`Contains` capability of `backup/method.rs`. -/
def mapContains {K V : Type} [DecidableEq K] (m : List (K × V)) (k : K) : Bool :=
  m.any (fun e => decide (e.1 = k))

/-- Modelled from the spec: `Map::insert` of the missing
`backup/method.rs` for the `Store` method: `insert(key, value) → Ok |
KeyExists`; on `KeyExists` the map is left unchanged. -/
def mapInsert {K V : Type} [DecidableEq K] (m : List (K × V)) (k : K) (v : V) :
    Option (List (K × V)) :=
  if mapContains m k then none else some (m ++ [(k, v)])

/-- Key-set membership for the `ValidateOnly` method. -/
def keySetContains {K : Type} [DecidableEq K] (s : List K) (k : K) : Bool :=
  s.any (fun e => decide (e = k))

/-- Modelled from the spec: `Map::insert` of the missing
`backup/method.rs` for the `ValidateOnly` method, which keeps only the key
set for membership tests. -/
def keySetInsert {K : Type} [DecidableEq K] (s : List K) (k : K) : Option (List K) :=
  if keySetContains s k then none else some (s ++ [k])

/-- `ChatData<Store>`: the per-chat data; per the spec only the ordered
item list matters here ("chat id → chat data with empty item list";
`Chat.items` appends new `ChatItem`s). Converted chat items are modelled
by their proto content. -/
structure ChatDataStore where
  items : List ChatItemProto
deriving DecidableEq

/-- `PartialBackup<Store>` (backup.rs lines 30-37): all maps keep their
values, keyed by id. `HashMap`s are modelled as association lists. -/
structure PartialBackupStore where
  meta : BackupMeta
  accountData : Option AccountDataProto
  recipients : List (RecipientId × RecipientProto)
  chats : List (ChatId × ChatDataStore)
  calls : List (CallId × CallProto)
  stickerPacks : List (List Nat × StickerPackProto)
deriving DecidableEq

/-- Modelled from the spec: `PartialBackup<ValidateOnly>` retains "only the
identifier sets and foreign-key indexes"; payload content is discarded
after checks. -/
structure PartialBackupValidateOnly where
  meta : BackupMeta
  accountData : Option Unit
  recipients : List RecipientId
  chats : List ChatId
  calls : List CallId
  stickerPacks : List (List Nat)
deriving DecidableEq

/-- `PartialBackup::new` (backup.rs lines 201-222), `Store` instantiation
(`PartialBackup::new_store`). -/
def newStore (value : BackupInfo) (purpose : Purpose) : PartialBackupStore :=
  { meta := { version := value.version, backupTime := value.backupTimeMs, purpose := purpose }
    accountData := none
    recipients := []
    chats := []
    calls := []
    stickerPacks := [] }

/-- `PartialBackup::new` (backup.rs lines 201-222), `ValidateOnly`
instantiation (`PartialBackup::new_validator`). -/
def newValidateOnly (value : BackupInfo) (purpose : Purpose) : PartialBackupValidateOnly :=
  { meta := { version := value.version, backupTime := value.backupTimeMs, purpose := purpose }
    accountData := none
    recipients := []
    chats := []
    calls := []
    stickerPacks := [] }

/-- Modelled from the spec: the `AccountData` conversion of the missing
`backup/account_data.rs` ("convert and store"); failure abstracted by the
proto's `convOk` flag. -/
def convertAccountData (a : AccountDataProto) : Except AccountDataError AccountDataProto :=
  if a.convOk then .ok a else .error .convError

/-- Modelled from the spec: the `Recipient` conversion of the missing
`backup/recipient.rs` ("convert; insert into recipient map"). -/
def convertRecipient (r : RecipientProto) : Except RecipientError RecipientProto :=
  if r.convOk then .ok r else .error .convError

/-- Modelled from the spec: the `Chat` conversion of the missing
`backup/chat.rs`: "convert with the recipient set as context (fails if
`recipientId` unknown)"; on success the chat data starts with an empty
item list. -/
def convertChat (recipientKnown : RecipientId → Bool) (c : ChatProto) :
    Except ChatError ChatDataStore :=
  if recipientKnown c.recipientId then .ok { items := [] }
  else .error (.noRecipient c.recipientId)

/-- Modelled from the spec: the `ChatItem` conversion of the missing
`backup/chat.rs`: it checks the author against the recipient index of the
conversion context and "may yield a side-effect `Call`"
(`MaybeWithCall`). -/
def convertChatItem (recipientKnown : RecipientId → Bool) (ci : ChatItemProto) :
    Except ChatItemError (ChatItemProto × Option CallProto) :=
  if recipientKnown ci.authorId then .ok (ci, ci.call)
  else .error (.authorNotFound ci.authorId)

/-- Modelled from the spec: the `StickerPack` conversion of the missing
`backup/sticker.rs`; failure abstracted by the proto's `convOk` flag. -/
def convertStickerPack (sp : StickerPackProto) : Except StickerPackError StickerPackProto :=
  if sp.convOk then .ok sp else .error .convError

/-- Append a converted chat item to the item list of the chat stored under
`k` (the `chat_data.items.extend([chat_item_data])` step of backup.rs
line 306). -/
def chatAppendItem (m : List (ChatId × ChatDataStore)) (k : ChatId) (it : ChatItemProto) :
    List (ChatId × ChatDataStore) :=
  m.map (fun e => if e.1 = k then (e.1, { items := e.2.items ++ [it] }) else e)

/-- `PartialBackup::add_account_data` (backup.rs lines 240-250), `Store`
mode. The result pairs the error verdict with the post-call state. -/
def addAccountDataStore (s : PartialBackupStore) (a : AccountDataProto) :
    Option ValidationError × PartialBackupStore :=
  if s.accountData.isSome then (some .multipleAccountData, s)
  else
    match convertAccountData a with
    | .error e => (some (.accountData e), s)
    | .ok v => (none, { s with accountData := some v })

/-- `PartialBackup::add_recipient` (backup.rs lines 252-259), `Store` mode. -/
def addRecipientStore (s : PartialBackupStore) (r : RecipientProto) :
    Option ValidationError × PartialBackupStore :=
  match convertRecipient r with
  | .error e => (some (.recipientError r.id e), s)
  | .ok v =>
    match mapInsert s.recipients r.id v with
    | none => (some (.recipientError r.id .duplicateRecipient), s)
    | some m => (none, { s with recipients := m })

/-- `PartialBackup::add_chat` (backup.rs lines 261-274), `Store` mode:
conversion (with the recipient map as context) runs before the
duplicate-id check on the chats map. -/
def addChatStore (s : PartialBackupStore) (c : ChatProto) :
    Option ValidationError × PartialBackupStore :=
  match convertChat (mapContains s.recipients) c with
  | .error e => (some (.chatError c.id e), s)
  | .ok chat =>
    if mapContains s.chats c.id then (some (.chatError c.id .duplicateId), s)
    else (none, { s with chats := s.chats ++ [(c.id, chat)] })

/-- `PartialBackup::add_chat_item` (backup.rs lines 276-309), `Store` mode:
chat lookup, then conversion, then — only after all fallible checks — the
call-map insertion and the item append. -/
def addChatItemStore (s : PartialBackupStore) (ci : ChatItemProto) :
    Option ValidationError × PartialBackupStore :=
  if mapContains s.chats ci.chatId then
    match convertChatItem (mapContains s.recipients) ci with
    | .error e => (some (.chatError ci.chatId (.chatItem e)), s)
    | .ok (item, someCall) =>
      match someCall with
      | some call =>
        match mapInsert s.calls call.callId call with
        | none => (some (.callError call.callId .duplicateId), s)
        | some calls' =>
          (none, { s with calls := calls', chats := chatAppendItem s.chats ci.chatId item })
      | none => (none, { s with chats := chatAppendItem s.chats ci.chatId item })
  else (some (.chatError ci.chatId (.chatItem .noChatForItem)), s)

/-- `PartialBackup::add_sticker_pack` (backup.rs lines 311-327), `Store`
mode: id parse, then conversion, then the duplicate-id check. -/
def addStickerPackStore (s : PartialBackupStore) (sp : StickerPackProto) :
    Option ValidationError × PartialBackupStore :=
  if sp.packId.length = 16 then
    match convertStickerPack sp with
    | .error e => (some (.stickerError (.packError sp.packId e)), s)
    | .ok pack =>
      if mapContains s.stickerPacks sp.packId then
        (some (.stickerError (.duplicateId sp.packId)), s)
      else (none, { s with stickerPacks := s.stickerPacks ++ [(sp.packId, pack)] })
  else (some (.stickerError .invalidId), s)

/-- `PartialBackup::add_frame_item` (backup.rs lines 228-238), `Store` mode. -/
def addFrameItemStore (s : PartialBackupStore) (it : FrameItem) :
    Option ValidationError × PartialBackupStore :=
  match it with
  | .account a => addAccountDataStore s a
  | .recipient r => addRecipientStore s r
  | .chat c => addChatStore s c
  | .chatItem ci => addChatItemStore s ci
  | .stickerPack sp => addStickerPackStore s sp

/-- `PartialBackup::add_frame` (backup.rs lines 224-226), `Store` mode. -/
def addFrameStore (s : PartialBackupStore) (f : Frame) :
    Option ValidationError × PartialBackupStore :=
  match f.item with
  | none => (some .emptyFrame, s)
  | some it => addFrameItemStore s it

/-- `PartialBackup::add_account_data`, `ValidateOnly` mode: same checks,
payload discarded. -/
def addAccountDataValidateOnly (s : PartialBackupValidateOnly) (a : AccountDataProto) :
    Option ValidationError × PartialBackupValidateOnly :=
  if s.accountData.isSome then (some .multipleAccountData, s)
  else
    match convertAccountData a with
    | .error e => (some (.accountData e), s)
    | .ok _ => (none, { s with accountData := some () })

/-- `PartialBackup::add_recipient`, `ValidateOnly` mode. -/
def addRecipientValidateOnly (s : PartialBackupValidateOnly) (r : RecipientProto) :
    Option ValidationError × PartialBackupValidateOnly :=
  match convertRecipient r with
  | .error e => (some (.recipientError r.id e), s)
  | .ok _ =>
    match keySetInsert s.recipients r.id with
    | none => (some (.recipientError r.id .duplicateRecipient), s)
    | some m => (none, { s with recipients := m })

/-- `PartialBackup::add_chat`, `ValidateOnly` mode. -/
def addChatValidateOnly (s : PartialBackupValidateOnly) (c : ChatProto) :
    Option ValidationError × PartialBackupValidateOnly :=
  match convertChat (keySetContains s.recipients) c with
  | .error e => (some (.chatError c.id e), s)
  | .ok _ =>
    if keySetContains s.chats c.id then (some (.chatError c.id .duplicateId), s)
    else (none, { s with chats := s.chats ++ [c.id] })

/-- `PartialBackup::add_chat_item`, `ValidateOnly` mode. -/
def addChatItemValidateOnly (s : PartialBackupValidateOnly) (ci : ChatItemProto) :
    Option ValidationError × PartialBackupValidateOnly :=
  if keySetContains s.chats ci.chatId then
    match convertChatItem (keySetContains s.recipients) ci with
    | .error e => (some (.chatError ci.chatId (.chatItem e)), s)
    | .ok (_, someCall) =>
      match someCall with
      | some call =>
        match keySetInsert s.calls call.callId with
        | none => (some (.callError call.callId .duplicateId), s)
        | some calls' => (none, { s with calls := calls' })
      | none => (none, s)
  else (some (.chatError ci.chatId (.chatItem .noChatForItem)), s)

/-- `PartialBackup::add_sticker_pack`, `ValidateOnly` mode. -/
def addStickerPackValidateOnly (s : PartialBackupValidateOnly) (sp : StickerPackProto) :
    Option ValidationError × PartialBackupValidateOnly :=
  if sp.packId.length = 16 then
    match convertStickerPack sp with
    | .error e => (some (.stickerError (.packError sp.packId e)), s)
    | .ok _ =>
      if keySetContains s.stickerPacks sp.packId then
        (some (.stickerError (.duplicateId sp.packId)), s)
      else (none, { s with stickerPacks := s.stickerPacks ++ [sp.packId] })
  else (some (.stickerError .invalidId), s)

/-- `PartialBackup::add_frame_item`, `ValidateOnly` mode. -/
def addFrameItemValidateOnly (s : PartialBackupValidateOnly) (it : FrameItem) :
    Option ValidationError × PartialBackupValidateOnly :=
  match it with
  | .account a => addAccountDataValidateOnly s a
  | .recipient r => addRecipientValidateOnly s r
  | .chat c => addChatValidateOnly s c
  | .chatItem ci => addChatItemValidateOnly s ci
  | .stickerPack sp => addStickerPackValidateOnly s sp

/-- `PartialBackup::add_frame`, `ValidateOnly` mode. -/
def addFrameValidateOnly (s : PartialBackupValidateOnly) (f : Frame) :
    Option ValidationError × PartialBackupValidateOnly :=
  match f.item with
  | none => (some .emptyFrame, s)
  | some it => addFrameItemValidateOnly s it

/-- Feed a frame sequence to a `Store`-mode validator, collecting the
per-frame verdicts. -/
def runStore : PartialBackupStore → List Frame →
    List (Option ValidationError) × PartialBackupStore
  | s, [] => ([], s)
  | s, f :: fs =>
    ((addFrameStore s f).1 :: (runStore (addFrameStore s f).2 fs).1,
      (runStore (addFrameStore s f).2 fs).2)

/-- Feed a frame sequence to a `ValidateOnly`-mode validator, collecting
the per-frame verdicts. -/
def runValidateOnly : PartialBackupValidateOnly → List Frame →
    List (Option ValidationError) × PartialBackupValidateOnly
  | s, [] => ([], s)
  | s, f :: fs =>
    ((addFrameValidateOnly s f).1 :: (runValidateOnly (addFrameValidateOnly s f).2 fs).1,
      (runValidateOnly (addFrameValidateOnly s f).2 fs).2)

/-- The `serialize` aliases attached to each `Purpose` variant by the
`strum` attributes (backup.rs lines 70-85), in declaration order. -/
def Purpose.serializations : Purpose → List String
  | .deviceTransfer => ["device_transfer", "device-transfer", "transfer"]
  | .remoteBackup => ["remote_backup", "remote-backup", "backup"]

/-- `strum::EnumString`-derived `FromStr`: each `serialize` value becomes a
case-sensitive match arm, in declaration order (no `ascii_case_insensitive`
property is set). -/
def Purpose.fromStr (s : String) : Option Purpose :=
  if s = "device_transfer" then some .deviceTransfer
  else if s = "device-transfer" then some .deviceTransfer
  else if s = "transfer" then some .deviceTransfer
  else if s = "remote_backup" then some .remoteBackup
  else if s = "remote-backup" then some .remoteBackup
  else if s = "backup" then some .remoteBackup
  else none

/-- Rust `Iterator::max_by_key`: maximum by key; when several elements are
equally maximal, the last one is returned. -/
def maxByKeyLast {α : Type} (f : α → Nat) : List α → Option α
  | [] => none
  | x :: xs =>
    match maxByKeyLast f xs with
    | none => some x
    | some y => if f y < f x then some x else some y

/-- `strum::Display` / `strum::IntoStaticStr`-derived conversion to string:
with no `to_string` property, the longest `serialize` value is used
(`get_preferred_name` picks it with `max_by_key` on the length, so a tie
resolves to the last longest alias). -/
def Purpose.toStr (p : Purpose) : String :=
  (maxByKeyLast String.length p.serializations).getD ""

/-- The `repr(u8)` discriminants of `Purpose` (backup.rs lines 77 and 84). -/
def Purpose.tag : Purpose → Nat
  | .deviceTransfer => 0
  | .remoteBackup => 1

/-- `num_enum::TryFromPrimitive`-derived conversion from the integer tag. -/
def Purpose.tryFromPrimitive (n : Nat) : Option Purpose :=
  if n = 0 then some .deviceTransfer
  else if n = 1 then some .remoteBackup
  else none

/-- Modelled from the spec: display text of `RecipientError`
(backup/recipient.rs is not under src/); the in-source test
`rejects_duplicate_id` checks that the duplicate message contains
"multiple". -/
def RecipientError.message : RecipientError → String
  | .duplicateRecipient => "multiple frames for the same recipient"
  | .convError => "invalid recipient"

/-- Modelled from the spec: display text of `ChatItemError`
(backup/chat.rs is not under src/); the in-source test
`rejects_missing_foreign_key` checks that both messages contain
"no record". -/
def ChatItemError.message : ChatItemError → String
  | .noChatForItem => "no record for chat"
  | .authorNotFound i => "no record for chat item author " ++ toString i

/-- Modelled from the spec: display text of `ChatError` (backup/chat.rs is
not under src/); the duplicate-id message contains "multiple"
(`rejects_duplicate_id`) and the unknown-recipient message contains
"no record" (`rejects_missing_foreign_key`). -/
def ChatError.message : ChatError → String
  | .duplicateId => "multiple records for the same chat"
  | .noRecipient i => "no record for recipient " ++ toString i
  | .chatItem e => e.message

/-- Modelled from the spec: display text of `CallError` (backup/call.rs is
not under src/); the duplicate message contains "multiple"
(`rejects_duplicate_id`). -/
def CallError.message : CallError → String
  | .duplicateId => "multiple records for the same call"

/-- Modelled from the spec: display text of the abstract conversion error
of backup/account_data.rs. -/
def AccountDataError.message : AccountDataError → String
  | .convError => "invalid account data"

/-- Modelled from the spec: display text of the abstract conversion error
of backup/sticker.rs. -/
def StickerPackError.message : StickerPackError → String
  | .convError => "invalid sticker pack"

/-- `StickerError` display (backup.rs lines 169-177). -/
def StickerError.message : StickerError → String
  | .invalidId => "pack ID is invalid"
  | .duplicateId i => "multiple sticker packs for ID " ++ toString i
  | .packError i e => "for pack " ++ toString i ++ ": " ++ e.message

/-- `ValidationError` display (backup.rs lines 109-133): the displaydoc
texts of `ValidationError`, `ChatFrameError`, `CallFrameError` and
`RecipientFrameError`; `{0:?}` debug-rendering of id newtypes is modelled
as the numeral. -/
def ValidationError.message : ValidationError → String
  | .emptyFrame => "Frame.item is a oneof but has no value"
  | .multipleAccountData => "multiple AccountData frames found"
  | .accountData e => "AccountData error: " ++ e.message
  | .recipientError i e => "recipient " ++ toString i ++ " error: " ++ e.message
  | .chatError i e => "chat frame " ++ toString i ++ " error: " ++ e.message
  | .callError i e => "call data " ++ toString i ++ " error: " ++ e.message
  | .stickerError e => e.message

/-- Does `pat` occur as a contiguous run inside the second list. -/
def listContainsSub (pat : List Char) : List Char → Bool
  | [] => pat.isEmpty
  | c :: rest => pat.isPrefixOf (c :: rest) || listContainsSub pat rest

/-- Does the string `pat` occur inside `hay`. -/
def strContainsSub (hay pat : String) : Bool :=
  listContainsSub pat.data hay.data

/-- The abstraction relation between the two validator modes: the
`ValidateOnly` state is the key-set image of the `Store` state. -/
def modeRelated (s : PartialBackupStore) (v : PartialBackupValidateOnly) : Prop :=
  v.accountData.isSome = s.accountData.isSome ∧
  v.recipients = s.recipients.map Prod.fst ∧
  v.chats = s.chats.map Prod.fst ∧
  v.calls = s.calls.map Prod.fst ∧
  v.stickerPacks = s.stickerPacks.map Prod.fst

/-- Does the frame carry an `AccountData` item. -/
def isAccountFrame (f : Frame) : Bool :=
  match f.item with
  | some (.account _) => true
  | _ => false

/-- How many `AccountData` frames of `fs` were accepted, per the aligned
verdict list. -/
def acceptedAccountCount (fs : List Frame) (verdicts : List (Option ValidationError)) : Nat :=
  (fs.zip verdicts).countP (fun x => isAccountFrame x.1 && x.2.isNone)

end MessageBackup

namespace ChatServerRequests

/-- Rust `u8::to_ascii_lowercase` lifted to a char. -/
def asciiLowerChar (c : Char) : Char :=
  if 'A' ≤ c && c ≤ 'Z' then Char.ofNat (c.toNat + 32) else c

/-- Rust `str::eq_ignore_ascii_case`. -/
def eqIgnoreAsciiCase (a b : String) : Bool :=
  a.data.map asciiLowerChar == b.data.map asciiLowerChar

/-- Helper for `splitOnceColon`: split a char list at the first colon. -/
def splitOnceColonAux : List Char → Option (List Char × List Char)
  | [] => none
  | c :: rest =>
    if c = ':' then some ([], rest)
    else (splitOnceColonAux rest).map (fun p => (c :: p.1, p.2))

/-- Rust `str::split_once(':')`: the pieces before and after the first
colon, or `none` when there is no colon. -/
def splitOnceColon (s : String) : Option (String × String) :=
  (splitOnceColonAux s.data).map (fun p => (String.mk p.1, String.mk p.2))

/-- Rust `str::parse::<u64>`: an optional leading `+`, then one or more
ascii digits; overflow past `2^64 - 1` is an error. -/
def parseU64 (s : String) : Option Nat :=
  let ds :=
    match s.data with
    | '+' :: rest => rest
    | l => l
  if ds.isEmpty then none
  else if ds.all (fun c => c.isDigit) then
    let v := ds.foldl (fun a c => a * 10 + (c.toNat - 48)) 0
    if v < 2 ^ 64 then some v else none
  else none

/-- Rust `str::trim` (it strips Unicode `White_Space`; the chars of
`Char.isWhitespace` are the ones that occur in ascii header values). -/
def rustTrim (s : String) : String :=
  String.mk (((s.data.dropWhile Char.isWhitespace).reverse.dropWhile Char.isWhitespace).reverse)

/-- The per-header closure of `stream_incoming_messages`
(server_requests.rs lines 71-78): split at the first colon, compare the
name case-insensitively with `x-signal-timestamp`, trim and parse the
value. -/
def headerTimestamp (header : String) : Option Nat :=
  match splitOnceColon header with
  | none => none
  | some (name, value) =>
    if eqIgnoreAsciiCase name "x-signal-timestamp" then parseU64 (rustTrim value)
    else none

/-- The decoded request proto of `ServerRequest` (chat/ws.rs interface):
optional verb, path, id and body, plus the ordered header list. The
response sender only feeds the dropped `send_ack` future. -/
structure ServerRequest where
  verb : Option String
  path : Option String
  headers : List String
  body : Option (List Nat)
  id : Option Nat

/-- `ServerMessage` (server_requests.rs lines 19-27); the `send_ack`
future is not modelled. -/
inductive ServerMessage where
  | queueEmpty
  | incomingMessage (requestId : Nat) (envelope : List Nat) (serverDeliveryTimestamp : Nat)
deriving DecidableEq

/-- The per-request body of the `filter_map` inside
`stream_incoming_messages` (server_requests.rs lines 51-106). Proto
getters default the verb to "" and the id to 0; the missing-path and
unknown-path arms both yield nothing. -/
def handleServerRequest (request : ServerRequest) : Option ServerMessage :=
  if request.verb.getD "" ≠ "PUT" then none
  else if request.path.getD "" = "/api/v1/queue/empty" then some .queueEmpty
  else if request.path.getD "" = "/api/v1/message" then
    let rawTimestamp := (request.headers.filterMap headerTimestamp).getLast?
    some (.incomingMessage (request.id.getD 0) (request.body.getD []) (rawTimestamp.getD 0))
  else none

/-- `stream_incoming_messages` (server_requests.rs lines 48-107) over the
queue of framed requests, as the list of messages the output stream
yields. -/
def streamIncomingMessages (requests : List ServerRequest) : List ServerMessage :=
  requests.filterMap handleServerRequest

/-- The spec's reading of the timestamp rule: the value of the last header
whose name case-insensitively matches `x-signal-timestamp` and parses as
unsigned 64-bit milliseconds. -/
def lastTimestampOfHeaders (headers : List String) : Option Nat :=
  headers.reverse.findSome? headerTimestamp

end ChatServerRequests

namespace Enclave

/-- Lowercase hex digit of a nibble (`hex::encode`). -/
def hexDigitChar (n : Nat) : Char :=
  if n < 10 then Char.ofNat (48 + n) else Char.ofNat (87 + n)

/-- `hex::encode` of one byte: two lowercase hex digits. -/
def hexByteChars (b : Nat) : List Char :=
  [hexDigitChar (b / 16 % 16), hexDigitChar (b % 16)]

/-- `hex::encode`. -/
def hexEncode (bytes : List Nat) : String :=
  String.mk ((bytes.map hexByteChars).flatten)

/-- UTF-8 encoding of one scalar value. -/
def utf8EncodeChar (c : Char) : List Nat :=
  if c.toNat < 0x80 then [c.toNat]
  else if c.toNat < 0x800 then [0xC0 + c.toNat / 64, 0x80 + c.toNat % 64]
  else if c.toNat < 0x10000 then
    [0xE0 + c.toNat / 4096, 0x80 + c.toNat / 64 % 64, 0x80 + c.toNat % 64]
  else
    [0xF0 + c.toNat / 0x40000, 0x80 + c.toNat / 4096 % 64, 0x80 + c.toNat / 64 % 64,
      0x80 + c.toNat % 64]

/-- The UTF-8 bytes of a string. -/
def utf8Encode (s : String) : List Nat :=
  (s.data.map utf8EncodeChar).flatten

/-- Is `b` a UTF-8 continuation byte. -/
def isContByte (b : Nat) : Bool := 0x80 ≤ b && b ≤ 0xBF

/-- One step of strict UTF-8 decoding (`std::str::from_utf8`): decode the
scalar value starting at the head of the byte list, rejecting stray
continuation bytes, overlong forms, surrogates and values above
`0x10FFFF`; returns the decoded char and the remaining bytes. -/
def utf8DecodeStep : List Nat → Option (Char × List Nat)
  | [] => none
  | b0 :: rest =>
    if b0 < 0x80 then some (Char.ofNat b0, rest)
    else if 0xC2 ≤ b0 && b0 ≤ 0xDF then
      match rest with
      | b1 :: rest2 =>
        if isContByte b1 then some (Char.ofNat ((b0 - 0xC0) * 64 + (b1 - 0x80)), rest2)
        else none
      | [] => none
    else if 0xE0 ≤ b0 && b0 ≤ 0xEF then
      match rest with
      | b1 :: b2 :: rest2 =>
        if (if b0 = 0xE0 then 0xA0 else 0x80) ≤ b1 &&
            b1 ≤ (if b0 = 0xED then 0x9F else 0xBF) && isContByte b2 then
          some (Char.ofNat ((b0 - 0xE0) * 4096 + (b1 - 0x80) * 64 + (b2 - 0x80)), rest2)
        else none
      | _ => none
    else if 0xF0 ≤ b0 && b0 ≤ 0xF4 then
      match rest with
      | b1 :: b2 :: b3 :: rest2 =>
        if (if b0 = 0xF0 then 0x90 else 0x80) ≤ b1 &&
            b1 ≤ (if b0 = 0xF4 then 0x8F else 0xBF) && isContByte b2 && isContByte b3 then
          some
            (Char.ofNat
              ((b0 - 0xF0) * 0x40000 + (b1 - 0x80) * 4096 + (b2 - 0x80) * 64 + (b3 - 0x80)),
              rest2)
        else none
      | _ => none
    else none

/-- Fuelled driver of the UTF-8 decoder; a step always consumes at least
one byte, so fuel `l.length` suffices. -/
def utf8DecodeF : Nat → List Nat → Option (List Char)
  | _, [] => some []
  | 0, _ :: _ => none
  | fuel + 1, b0 :: rest =>
    match utf8DecodeStep (b0 :: rest) with
    | none => none
    | some (c, rest2) => (utf8DecodeF fuel rest2).map (fun cs => c :: cs)

/-- Strict UTF-8 decoding of a whole byte string
(`std::str::from_utf8`). -/
def utf8Decode (l : List Nat) : Option (List Char) :=
  utf8DecodeF l.length l

/-- Bytes the `http` crate accepts in the path section of a
`PathAndQuery` (`PathAndQuery::from_shared`). -/
def pathByteAllowed (b : Nat) : Bool :=
  b == 0x21 || (0x24 ≤ b && b ≤ 0x3B) || b == 0x3D || (0x40 ≤ b && b ≤ 0x5F) ||
    (0x61 ≤ b && b ≤ 0x7A) || b == 0x7C || b == 0x7E

/-- Bytes the `http` crate accepts in the query section. -/
def queryByteAllowed (b : Nat) : Bool :=
  b == 0x21 || (0x24 ≤ b && b ≤ 0x3B) || b == 0x3D || (0x3F ≤ b && b ≤ 0x7E)

/-- Query-section scan of `PathAndQuery::from_shared`: a `#` starts the
fragment, which is truncated away; other bytes must be allowed. -/
def pqScanQuery : List Nat → Option (List Nat)
  | [] => some []
  | b :: rest =>
    if b == 0x23 then some []
    else if queryByteAllowed b then (pqScanQuery rest).map (fun l => b :: l)
    else none

/-- Path-section scan of `PathAndQuery::from_shared`: `?` switches to the
query section, `#` truncates, other bytes must be allowed. -/
def pqScanPath : List Nat → Option (List Nat)
  | [] => some []
  | b :: rest =>
    if b == 0x3F then (pqScanQuery rest).map (fun l => b :: l)
    else if b == 0x23 then some []
    else if pathByteAllowed b then (pqScanPath rest).map (fun l => b :: l)
    else none

/-- Model of `http::uri::PathAndQuery::try_from` on a string: validate the
UTF-8 bytes, keeping everything before a fragment. -/
def pathAndQueryTryFrom (s : String) : Option String :=
  (pqScanPath (utf8Encode s)).bind (fun kept => (utf8Decode kept).map String.mk)

/-- `EnclaveKind::url_path` for `Cdsi` (enclave.rs lines 43-47); `none`
models the panic of the `.unwrap()`. -/
def cdsiUrlPath (enclave : List Nat) : Option String :=
  pathAndQueryTryFrom ("/v1/" ++ hexEncode enclave ++ "/discovery")

/-- `EnclaveKind::url_path` for `Sgx` (enclave.rs lines 49-53). -/
def sgxUrlPath (enclave : List Nat) : Option String :=
  pathAndQueryTryFrom ("/v1/" ++ hexEncode enclave)

/-- `EnclaveKind::url_path` for `Nitro` (enclave.rs lines 55-63); `none`
models the panics of `.expect("valid utf8")` and `.unwrap()`. -/
def nitroUrlPath (enclave : List Nat) : Option String :=
  (utf8Decode enclave).bind (fun cs => pathAndQueryTryFrom ("/v1/" ++ String.mk cs))

/-- `EnclaveKind::url_path` for `Tpm2Snp` (enclave.rs lines 65-73). -/
def tpm2snpUrlPath (enclave : List Nat) : Option String :=
  (utf8Decode enclave).bind (fun cs => pathAndQueryTryFrom ("/v1/" ++ String.mk cs))

/-- `WebSocketConnectError`, kept abstract. -/
inductive WebSocketConnectError where
  | transport
  | timeout
deriving DecidableEq

/-- `WebSocketServiceError`, kept abstract. -/
inductive WebSocketServiceError where
  | other
deriving DecidableEq

/-- `attest::enclave::Error`, kept abstract. -/
inductive AttestError where
  | failed
deriving DecidableEq

/-- `ServiceState` of infra/reconnect.rs, as consumed by
`EnclaveEndpointConnection::connect`. -/
inductive ServiceState (W : Type) where
  | active (ws : W)
  | error (e : WebSocketConnectError)
  | cooldown (untilInstant : Nat)
  | connectionTimedOut
  | inactive

/-- `Error` (enclave.rs lines 215-227). -/
inductive EnclaveError where
  | webSocketConnect (e : WebSocketConnectError)
  | webSocket (e : WebSocketServiceError)
  | protocol
  | attestationError (e : AttestError)
  | connectionTimedOut
deriving DecidableEq

/-- `AttestedConnectionError` (infra/ws.rs interface). -/
inductive AttestedConnectionError where
  | clientConnection
  | webSocket (e : WebSocketServiceError)
  | protocol
  | sgx (e : AttestError)

/-- `From<AttestedConnectionError> for Error` (enclave.rs lines 231-240). -/
def errorFromAttested : AttestedConnectionError → EnclaveError
  | .clientConnection => .protocol
  | .webSocket e => .webSocket e
  | .protocol => .protocol
  | .sgx e => .attestationError e

/-- `EnclaveEndpointConnection::connect` (enclave.rs lines 243-278) as a
function of the manager's connection-attempt result and of the attestation
handshake `AttestedConnection::connect` runs over a live websocket. The
second component records whether the attestation handshake was run;
`none` models the `unreachable!` on `Inactive`. -/
def enclaveConnect {W A : Type} (attemptResult : ServiceState W)
    (attest : W → Except AttestedConnectionError A) :
    Option (Except EnclaveError A × Bool) :=
  match attemptResult with
  | .active ws =>
    some
      (match attest ws with
        | .ok a => .ok a
        | .error e => .error (errorFromAttested e), true)
  | .error e => some (.error (.webSocketConnect e), false)
  | .cooldown _ => some (.error .connectionTimedOut, false)
  | .connectionTimedOut => some (.error .connectionTimedOut, false)
  | .inactive => none

/-- Modelled from the spec: the cooldown state of a
`SingleRouteThrottlingConnectionManager`
(infra/connection_manager.rs is not under src/). -/
structure SingleRouteManager where
  cooldownUntil : Nat

/-- `ConnectionAttemptOutcome` (infra/connection_manager.rs interface). -/
inductive ConnectionAttemptOutcome (W : Type) where
  | attempted (r : Except WebSocketConnectError W)
  | waitUntil (t : Nat)
  | timedOut

/-- Modelled from the spec: "A call during cooldown returns WaitUntil(t)";
otherwise the result of the one throttled attempt is reported. -/
def singleRouteOutcome {W : Type} (m : SingleRouteManager) (now : Nat)
    (attempt : Except WebSocketConnectError W) : ConnectionAttemptOutcome W :=
  if now < m.cooldownUntil then .waitUntil m.cooldownUntil else .attempted attempt

/-- Modelled from the spec: a multi-route manager tries "each inner route
in order; if all are in cooldown the manager yields WaitUntil". `wait`
carries the earliest retry instant of the skipped routes;
`attemptedAny` records whether some route was actually attempted. -/
def multiRouteOutcomeAux {W : Type} (now : Nat) (attemptedAny : Bool) (wait : Option Nat) :
    List (SingleRouteManager × Except WebSocketConnectError W) → ConnectionAttemptOutcome W
  | [] =>
    if attemptedAny then .timedOut
    else
      match wait with
      | some t => .waitUntil t
      | none => .timedOut
  | (m, attempt) :: rest =>
    if now < m.cooldownUntil then
      multiRouteOutcomeAux now attemptedAny
        (some (min (wait.getD m.cooldownUntil) m.cooldownUntil)) rest
    else
      match attempt with
      | .ok w => .attempted (.ok w)
      | .error _ => multiRouteOutcomeAux now true wait rest

/-- Modelled from the spec: `connect_or_wait` of a
`MultiRouteConnectionManager`, each route paired with the result its
attempt would produce. -/
def multiRouteOutcome {W : Type} (now : Nat)
    (routes : List (SingleRouteManager × Except WebSocketConnectError W)) :
    ConnectionAttemptOutcome W :=
  multiRouteOutcomeAux now false none routes

/-- Modelled from the spec: the `ServiceInitializer` turns the manager's
outcome into the `ServiceState` observed by
`EnclaveEndpointConnection::connect`. -/
def serviceStateOfOutcome {W : Type} : ConnectionAttemptOutcome W → ServiceState W
  | .attempted (.ok w) => .active w
  | .attempted (.error e) => .error e
  | .waitUntil t => .cooldown t
  | .timedOut => .connectionTimedOut

end Enclave

namespace MessageBackup

theorem addAccountDataStore_err {s : PartialBackupStore} {a : AccountDataProto} :
    (addAccountDataStore s a).1.isSome = true → (addAccountDataStore s a).2 = s := by
  unfold addAccountDataStore
  split
  · exact fun _ => rfl
  · split
    · exact fun _ => rfl
    · intro h; simp at h

theorem addRecipientStore_err {s : PartialBackupStore} {r : RecipientProto} :
    (addRecipientStore s r).1.isSome = true → (addRecipientStore s r).2 = s := by
  unfold addRecipientStore
  split
  · exact fun _ => rfl
  · split
    · exact fun _ => rfl
    · intro h; simp at h

theorem addChatStore_err {s : PartialBackupStore} {c : ChatProto} :
    (addChatStore s c).1.isSome = true → (addChatStore s c).2 = s := by
  unfold addChatStore
  split
  · exact fun _ => rfl
  · split
    · exact fun _ => rfl
    · intro h; simp at h

theorem addChatItemStore_err {s : PartialBackupStore} {ci : ChatItemProto} :
    (addChatItemStore s ci).1.isSome = true → (addChatItemStore s ci).2 = s := by
  unfold addChatItemStore
  split
  · split
    · exact fun _ => rfl
    · split
      · split
        · exact fun _ => rfl
        · intro h; simp at h
      · intro h; simp at h
  · exact fun _ => rfl

theorem addStickerPackStore_err {s : PartialBackupStore} {sp : StickerPackProto} :
    (addStickerPackStore s sp).1.isSome = true → (addStickerPackStore s sp).2 = s := by
  unfold addStickerPackStore
  split
  · split
    · exact fun _ => rfl
    · split
      · exact fun _ => rfl
      · intro h; simp at h
  · exact fun _ => rfl

theorem addFrameStore_err {s : PartialBackupStore} {f : Frame} :
    (addFrameStore s f).1.isSome = true → (addFrameStore s f).2 = s := by
  unfold addFrameStore
  cases hf : f.item with
  | none => exact fun _ => rfl
  | some it =>
    cases it with
    | account a => exact addAccountDataStore_err
    | recipient r => exact addRecipientStore_err
    | chat c => exact addChatStore_err
    | chatItem ci => exact addChatItemStore_err
    | stickerPack sp => exact addStickerPackStore_err

theorem addAccountDataValidateOnly_err {s : PartialBackupValidateOnly} {a : AccountDataProto} :
    (addAccountDataValidateOnly s a).1.isSome = true → (addAccountDataValidateOnly s a).2 = s := by
  unfold addAccountDataValidateOnly
  split
  · exact fun _ => rfl
  · split
    · exact fun _ => rfl
    · intro h; simp at h

theorem addRecipientValidateOnly_err {s : PartialBackupValidateOnly} {r : RecipientProto} :
    (addRecipientValidateOnly s r).1.isSome = true → (addRecipientValidateOnly s r).2 = s := by
  unfold addRecipientValidateOnly
  split
  · exact fun _ => rfl
  · split
    · exact fun _ => rfl
    · intro h; simp at h

theorem addChatValidateOnly_err {s : PartialBackupValidateOnly} {c : ChatProto} :
    (addChatValidateOnly s c).1.isSome = true → (addChatValidateOnly s c).2 = s := by
  unfold addChatValidateOnly
  split
  · exact fun _ => rfl
  · split
    · exact fun _ => rfl
    · intro h; simp at h

theorem addChatItemValidateOnly_err {s : PartialBackupValidateOnly} {ci : ChatItemProto} :
    (addChatItemValidateOnly s ci).1.isSome = true → (addChatItemValidateOnly s ci).2 = s := by
  unfold addChatItemValidateOnly
  split
  · split
    · exact fun _ => rfl
    · split
      · split
        · exact fun _ => rfl
        · intro h; simp at h
      · exact fun _ => rfl
  · exact fun _ => rfl

theorem addStickerPackValidateOnly_err {s : PartialBackupValidateOnly} {sp : StickerPackProto} :
    (addStickerPackValidateOnly s sp).1.isSome = true → (addStickerPackValidateOnly s sp).2 = s := by
  unfold addStickerPackValidateOnly
  split
  · split
    · exact fun _ => rfl
    · split
      · exact fun _ => rfl
      · intro h; simp at h
  · exact fun _ => rfl

theorem addFrameValidateOnly_err {s : PartialBackupValidateOnly} {f : Frame} :
    (addFrameValidateOnly s f).1.isSome = true → (addFrameValidateOnly s f).2 = s := by
  unfold addFrameValidateOnly
  cases hf : f.item with
  | none => exact fun _ => rfl
  | some it =>
    cases it with
    | account a => exact addAccountDataValidateOnly_err
    | recipient r => exact addRecipientValidateOnly_err
    | chat c => exact addChatValidateOnly_err
    | chatItem ci => exact addChatItemValidateOnly_err
    | stickerPack sp => exact addStickerPackValidateOnly_err

theorem addChatItemStore_dup_call {s : PartialBackupStore} {ci : ChatItemProto} {c : CallProto}
    (hc : ci.call = some c) (hdup : mapContains s.calls c.callId = true) :
    (addChatItemStore s ci).1.isSome = true ∧ (addChatItemStore s ci).2 = s := by
  unfold addChatItemStore convertChatItem
  rw [hc]
  by_cases hchat : mapContains s.chats ci.chatId = true
  · by_cases hauth : mapContains s.recipients ci.authorId = true
    · simp only [if_pos hchat, if_pos hauth]
      rw [show mapInsert s.calls c.callId c = none from by unfold mapInsert; rw [hdup]; rfl]
      exact ⟨rfl, rfl⟩
    · rw [if_pos hchat, if_neg hauth]
      exact ⟨rfl, rfl⟩
  · rw [if_neg hchat]
    exact ⟨rfl, rfl⟩

/-- C1: every frame that `PartialBackup::add_frame` rejects with an error
leaves the validator state (account_data, recipients, chats, calls,
sticker_packs) exactly as it was, in both modes; in particular a chat-item
frame whose embedded call carries an id already present in the call map is
rejected and leaves the state — the target chat's item list and the call
map included — unchanged. -/
theorem add_frame_rejection_is_atomic :
    (∀ (s : PartialBackupStore) (f : Frame),
        (addFrameStore s f).1.isSome = true → (addFrameStore s f).2 = s) ∧
    (∀ (v : PartialBackupValidateOnly) (f : Frame),
        (addFrameValidateOnly v f).1.isSome = true → (addFrameValidateOnly v f).2 = v) ∧
    (∀ (s : PartialBackupStore) (ci : ChatItemProto) (c : CallProto),
        ci.call = some c → mapContains s.calls c.callId = true →
        (addFrameStore s { item := some (.chatItem ci) }).1.isSome = true ∧
        (addFrameStore s { item := some (.chatItem ci) }).2 = s) :=
  ⟨fun _ _ h => addFrameStore_err h,
   fun _ _ h => addFrameValidateOnly_err h,
   fun _ _ _ hc hdup => addChatItemStore_dup_call hc hdup⟩

/-- Witness for C1 at a concrete validator state and chat-item frame whose
embedded call id 7 is already in the call map. -/
theorem add_frame_rejection_is_atomic_witness :
    mapContains (PartialBackupStore.calls
        { meta := { version := 1, backupTime := 0, purpose := .remoteBackup }
          accountData := none
          recipients := [(2, { id := 2, convOk := true })]
          chats := [(3, { items := [] })]
          calls := [(7, { callId := 7 })]
          stickerPacks := [] }) 7 = true ∧
    (addFrameStore
        { meta := { version := 1, backupTime := 0, purpose := .remoteBackup }
          accountData := none
          recipients := [(2, { id := 2, convOk := true })]
          chats := [(3, { items := [] })]
          calls := [(7, { callId := 7 })]
          stickerPacks := [] }
        { item := some (.chatItem { chatId := 3, authorId := 2, call := some { callId := 7 } }) }).1.isSome
      = true ∧
    (addFrameStore
        { meta := { version := 1, backupTime := 0, purpose := .remoteBackup }
          accountData := none
          recipients := [(2, { id := 2, convOk := true })]
          chats := [(3, { items := [] })]
          calls := [(7, { callId := 7 })]
          stickerPacks := [] }
        { item := some (.chatItem { chatId := 3, authorId := 2, call := some { callId := 7 } }) }).2
      = { meta := { version := 1, backupTime := 0, purpose := .remoteBackup }
          accountData := none
          recipients := [(2, { id := 2, convOk := true })]
          chats := [(3, { items := [] })]
          calls := [(7, { callId := 7 })]
          stickerPacks := [] } :=
  ⟨by decide,
   add_frame_rejection_is_atomic.2.2
     { meta := { version := 1, backupTime := 0, purpose := .remoteBackup }
       accountData := none
       recipients := [(2, { id := 2, convOk := true })]
       chats := [(3, { items := [] })]
       calls := [(7, { callId := 7 })]
       stickerPacks := [] }
     { chatId := 3, authorId := 2, call := some { callId := 7 } }
     { callId := 7 } rfl (by decide)⟩

theorem keySetContains_map_fst {K V : Type} [DecidableEq K] (m : List (K × V)) (k : K) :
    keySetContains (m.map Prod.fst) k = mapContains m k := by
  induction m with
  | nil => rfl
  | cons e rest ih =>
    unfold keySetContains mapContains at ih ⊢
    rw [List.map_cons, List.any_cons, List.any_cons, ih]

theorem keySetInsert_map_fst {K V : Type} [DecidableEq K] (m : List (K × V)) (k : K) (v : V) :
    keySetInsert (m.map Prod.fst) k = (mapInsert m k v).map (fun l => l.map Prod.fst) := by
  unfold keySetInsert mapInsert
  rw [keySetContains_map_fst]
  by_cases h : mapContains m k = true
  · rw [if_pos h, if_pos h]
    rfl
  · rw [if_neg h, if_neg h]
    simp

theorem chatAppendItem_map_fst (m : List (ChatId × ChatDataStore)) (k : ChatId)
    (it : ChatItemProto) : (chatAppendItem m k it).map Prod.fst = m.map Prod.fst := by
  induction m with
  | nil => rfl
  | cons e rest ih =>
    unfold chatAppendItem at ih ⊢
    rw [List.map_cons, List.map_cons, List.map_cons, ih]
    by_cases h : e.1 = k
    · rw [if_pos h]
    · rw [if_neg h]

theorem addAccountData_mode {s : PartialBackupStore} {v : PartialBackupValidateOnly}
    (a : AccountDataProto) (h : modeRelated s v) :
    (addAccountDataValidateOnly v a).1 = (addAccountDataStore s a).1 ∧
    modeRelated (addAccountDataStore s a).2 (addAccountDataValidateOnly v a).2 := by
  obtain ⟨h1, h2, h3, h4, h5⟩ := h
  unfold addAccountDataStore addAccountDataValidateOnly
  rw [h1]
  by_cases hs : s.accountData.isSome = true
  · rw [if_pos hs, if_pos hs]
    exact ⟨rfl, h1, h2, h3, h4, h5⟩
  · rw [if_neg hs, if_neg hs]
    cases hconv : convertAccountData a with
    | error e => exact ⟨rfl, h1, h2, h3, h4, h5⟩
    | ok val =>
      dsimp only
      exact ⟨rfl, rfl, h2, h3, h4, h5⟩

theorem addRecipient_mode {s : PartialBackupStore} {v : PartialBackupValidateOnly}
    (r : RecipientProto) (h : modeRelated s v) :
    (addRecipientValidateOnly v r).1 = (addRecipientStore s r).1 ∧
    modeRelated (addRecipientStore s r).2 (addRecipientValidateOnly v r).2 := by
  obtain ⟨h1, h2, h3, h4, h5⟩ := h
  unfold addRecipientStore addRecipientValidateOnly
  cases hconv : convertRecipient r with
  | error e => exact ⟨rfl, h1, h2, h3, h4, h5⟩
  | ok val =>
    dsimp only
    rw [show keySetInsert v.recipients r.id
          = (mapInsert s.recipients r.id val).map (fun l => l.map Prod.fst) from by
        rw [h2, keySetInsert_map_fst]]
    cases hins : mapInsert s.recipients r.id val with
    | none => exact ⟨rfl, h1, h2, h3, h4, h5⟩
    | some m =>
      dsimp only
      exact ⟨rfl, h1, rfl, h3, h4, h5⟩

theorem addChat_mode {s : PartialBackupStore} {v : PartialBackupValidateOnly}
    (c : ChatProto) (h : modeRelated s v) :
    (addChatValidateOnly v c).1 = (addChatStore s c).1 ∧
    modeRelated (addChatStore s c).2 (addChatValidateOnly v c).2 := by
  obtain ⟨h1, h2, h3, h4, h5⟩ := h
  unfold addChatStore addChatValidateOnly
  rw [show keySetContains v.recipients = mapContains s.recipients from by
    funext k
    rw [h2, keySetContains_map_fst]]
  cases hconv : convertChat (mapContains s.recipients) c with
  | error e => exact ⟨rfl, h1, h2, h3, h4, h5⟩
  | ok chat =>
    dsimp only
    rw [show keySetContains v.chats c.id = mapContains s.chats c.id from by
      rw [h3, keySetContains_map_fst]]
    by_cases hdup : mapContains s.chats c.id = true
    · rw [if_pos hdup, if_pos hdup]
      exact ⟨rfl, h1, h2, h3, h4, h5⟩
    · rw [if_neg hdup, if_neg hdup]
      refine ⟨rfl, h1, h2, ?_, h4, h5⟩
      rw [List.map_append, h3]
      rfl

theorem addChatItem_mode {s : PartialBackupStore} {v : PartialBackupValidateOnly}
    (ci : ChatItemProto) (h : modeRelated s v) :
    (addChatItemValidateOnly v ci).1 = (addChatItemStore s ci).1 ∧
    modeRelated (addChatItemStore s ci).2 (addChatItemValidateOnly v ci).2 := by
  obtain ⟨h1, h2, h3, h4, h5⟩ := h
  unfold addChatItemStore addChatItemValidateOnly
  rw [show keySetContains v.recipients = mapContains s.recipients from by
    funext k
    rw [h2, keySetContains_map_fst]]
  rw [show keySetContains v.chats ci.chatId = mapContains s.chats ci.chatId from by
    rw [h3, keySetContains_map_fst]]
  by_cases hchat : mapContains s.chats ci.chatId = true
  · rw [if_pos hchat, if_pos hchat]
    cases hconv : convertChatItem (mapContains s.recipients) ci with
    | error e => exact ⟨rfl, h1, h2, h3, h4, h5⟩
    | ok pair =>
      obtain ⟨item, someCall⟩ := pair
      dsimp only
      cases someCall with
      | none =>
        dsimp only
        refine ⟨rfl, h1, h2, ?_, h4, h5⟩
        rw [chatAppendItem_map_fst]
        exact h3
      | some call =>
        dsimp only
        rw [show keySetInsert v.calls call.callId
              = (mapInsert s.calls call.callId call).map (fun l => l.map Prod.fst) from by
            rw [h4, keySetInsert_map_fst]]
        cases hins : mapInsert s.calls call.callId call with
        | none => exact ⟨rfl, h1, h2, h3, h4, h5⟩
        | some calls2 =>
          dsimp only
          refine ⟨rfl, h1, h2, ?_, rfl, h5⟩
          rw [chatAppendItem_map_fst]
          exact h3
  · rw [if_neg hchat, if_neg hchat]
    exact ⟨rfl, h1, h2, h3, h4, h5⟩

theorem addStickerPack_mode {s : PartialBackupStore} {v : PartialBackupValidateOnly}
    (sp : StickerPackProto) (h : modeRelated s v) :
    (addStickerPackValidateOnly v sp).1 = (addStickerPackStore s sp).1 ∧
    modeRelated (addStickerPackStore s sp).2 (addStickerPackValidateOnly v sp).2 := by
  obtain ⟨h1, h2, h3, h4, h5⟩ := h
  unfold addStickerPackStore addStickerPackValidateOnly
  by_cases hlen : sp.packId.length = 16
  · rw [if_pos hlen, if_pos hlen]
    cases hconv : convertStickerPack sp with
    | error e => exact ⟨rfl, h1, h2, h3, h4, h5⟩
    | ok pack =>
      dsimp only
      rw [show keySetContains v.stickerPacks sp.packId
            = mapContains s.stickerPacks sp.packId from by
        rw [h5, keySetContains_map_fst]]
      by_cases hdup : mapContains s.stickerPacks sp.packId = true
      · rw [if_pos hdup, if_pos hdup]
        exact ⟨rfl, h1, h2, h3, h4, h5⟩
      · rw [if_neg hdup, if_neg hdup]
        refine ⟨rfl, h1, h2, h3, h4, ?_⟩
        rw [List.map_append, h5]
        rfl
  · rw [if_neg hlen, if_neg hlen]
    exact ⟨rfl, h1, h2, h3, h4, h5⟩

theorem addFrame_mode {s : PartialBackupStore} {v : PartialBackupValidateOnly}
    (f : Frame) (h : modeRelated s v) :
    (addFrameValidateOnly v f).1 = (addFrameStore s f).1 ∧
    modeRelated (addFrameStore s f).2 (addFrameValidateOnly v f).2 := by
  unfold addFrameStore addFrameValidateOnly
  cases f.item with
  | none => exact ⟨rfl, h⟩
  | some it =>
    cases it with
    | account a => exact addAccountData_mode a h
    | recipient r => exact addRecipient_mode r h
    | chat c => exact addChat_mode c h
    | chatItem ci => exact addChatItem_mode ci h
    | stickerPack sp => exact addStickerPack_mode sp h

theorem run_mode (fs : List Frame) :
    ∀ (s : PartialBackupStore) (v : PartialBackupValidateOnly), modeRelated s v →
      (runValidateOnly v fs).1 = (runStore s fs).1 ∧
      modeRelated (runStore s fs).2 (runValidateOnly v fs).2 := by
  induction fs with
  | nil => exact fun s v h => ⟨rfl, h⟩
  | cons f rest ih =>
    intro s v h
    obtain ⟨hv, hrel⟩ := addFrame_mode f h
    obtain ⟨hv2, hrel2⟩ := ih (addFrameStore s f).2 (addFrameValidateOnly v f).2 hrel
    unfold runStore runValidateOnly
    refine ⟨?_, hrel2⟩
    rw [hv, hv2]

/-- C2: a `ValidateOnly` validator and a `Store` validator constructed from
the same `BackupInfo` and `Purpose` return the same accept/reject verdict
from `add_frame` at every position of every frame sequence. -/
theorem validateOnly_and_store_agree (info : BackupInfo) (p : Purpose) (fs : List Frame) :
    (runValidateOnly (newValidateOnly info p) fs).1 = (runStore (newStore info p) fs).1 :=
  (run_mode fs (newStore info p) (newValidateOnly info p) ⟨rfl, rfl, rfl, rfl, rfl⟩).1

theorem addFrameStore_accountData_of_not_account {s : PartialBackupStore} {f : Frame}
    (hf : isAccountFrame f = false) : (addFrameStore s f).2.accountData = s.accountData := by
  unfold addFrameStore
  cases hitem : f.item with
  | none => rfl
  | some it =>
    cases it with
    | account a =>
      unfold isAccountFrame at hf
      rw [hitem] at hf
      simp at hf
    | recipient r =>
      dsimp only [addFrameItemStore]
      unfold addRecipientStore
      split
      · rfl
      · split <;> rfl
    | chat c =>
      dsimp only [addFrameItemStore]
      unfold addChatStore
      split
      · rfl
      · split <;> rfl
    | chatItem ci =>
      dsimp only [addFrameItemStore]
      unfold addChatItemStore
      split
      · split
        · rfl
        · split
          · split <;> rfl
          · rfl
      · rfl
    | stickerPack sp =>
      dsimp only [addFrameItemStore]
      unfold addStickerPackStore
      split
      · split
        · rfl
        · split <;> rfl
      · rfl

theorem addAccountDataStore_accepted {s : PartialBackupStore} {a : AccountDataProto} :
    (addAccountDataStore s a).1.isNone = true →
    (addAccountDataStore s a).2.accountData.isSome = true := by
  unfold addAccountDataStore
  split
  · intro h
    simp at h
  · split
    · intro h
      simp at h
    · intro _
      rfl

theorem addAccountDataStore_already {s : PartialBackupStore} (a : AccountDataProto)
    (hs : s.accountData.isSome = true) :
    addAccountDataStore s a = (some .multipleAccountData, s) := by
  unfold addAccountDataStore
  rw [if_pos hs]

theorem addAccountDataValidateOnly_already {v : PartialBackupValidateOnly}
    (a : AccountDataProto) (hs : v.accountData.isSome = true) :
    addAccountDataValidateOnly v a = (some .multipleAccountData, v) := by
  unfold addAccountDataValidateOnly
  rw [if_pos hs]

theorem isAccountFrame_item {f : Frame} (hf : isAccountFrame f = true) :
    ∃ a, f.item = some (FrameItem.account a) := by
  unfold isAccountFrame at hf
  cases hitem : f.item with
  | none =>
    rw [hitem] at hf
    simp at hf
  | some it =>
    cases it with
    | account a => exact ⟨a, rfl⟩
    | recipient r =>
      rw [hitem] at hf
      simp at hf
    | chat c =>
      rw [hitem] at hf
      simp at hf
    | chatItem ci =>
      rw [hitem] at hf
      simp at hf
    | stickerPack sp =>
      rw [hitem] at hf
      simp at hf

theorem acceptedAccountCount_invariant (fs : List Frame) :
    ∀ s : PartialBackupStore,
      acceptedAccountCount fs (runStore s fs).1 ≤
        (if s.accountData.isSome = true then 0 else 1) := by
  induction fs with
  | nil =>
    intro s
    unfold acceptedAccountCount runStore
    simp only [List.zip_nil_left, List.countP_nil]
    split <;> omega
  | cons f rest ih =>
    intro s
    unfold runStore
    unfold acceptedAccountCount at ih ⊢
    rw [List.zip_cons_cons, List.countP_cons]
    cases haf : isAccountFrame f with
    | false =>
      have hihs := ih (addFrameStore s f).2
      rw [addFrameStore_accountData_of_not_account haf] at hihs
      simp only [haf, Bool.false_and]
      simp only [Bool.false_eq_true, if_false]
      omega
    | true =>
      obtain ⟨a, hitem⟩ := isAccountFrame_item haf
      have heq : addFrameStore s f = addAccountDataStore s a := by
        unfold addFrameStore
        rw [hitem]
        rfl
      by_cases hs : s.accountData.isSome = true
      · rw [if_pos hs]
        rw [heq, addAccountDataStore_already a hs]
        have hihs := ih s
        rw [if_pos hs] at hihs
        simp only [haf, Bool.true_and, Option.isNone_some]
        simp only [Bool.false_eq_true, if_false]
        omega
      · rw [if_neg hs]
        cases he : (addFrameStore s f).1.isNone with
        | true =>
          have hsome : (addFrameStore s f).2.accountData.isSome = true := by
            rw [heq] at he ⊢
            exact addAccountDataStore_accepted he
          have hihs := ih (addFrameStore s f).2
          rw [if_pos hsome] at hihs
          split <;> omega
        | false =>
          have hstate : (addFrameStore s f).2 = s := by
            refine addFrameStore_err ?_
            cases hopt : (addFrameStore s f).1 with
            | none =>
              rw [hopt] at he
              simp at he
            | some e => rfl
          rw [hstate]
          have hihs := ih s
          rw [if_neg hs] at hihs
          simp only [haf, Bool.true_and, he]
          simp only [Bool.false_eq_true, if_false]
          omega

/-- C3: for every frame sequence at most one `AccountData` frame is
accepted, and an `AccountData` frame arriving while `account_data` is
already set is rejected with `ValidationError::MultipleAccountData`, in
both modes. -/
theorem at_most_one_account_data :
    (∀ (info : BackupInfo) (p : Purpose) (fs : List Frame),
        acceptedAccountCount fs (runStore (newStore info p) fs).1 ≤ 1) ∧
    (∀ (info : BackupInfo) (p : Purpose) (fs : List Frame),
        acceptedAccountCount fs (runValidateOnly (newValidateOnly info p) fs).1 ≤ 1) ∧
    (∀ (s : PartialBackupStore) (a : AccountDataProto),
        s.accountData.isSome = true →
        addFrameStore s { item := some (.account a) } = (some .multipleAccountData, s)) ∧
    (∀ (v : PartialBackupValidateOnly) (a : AccountDataProto),
        v.accountData.isSome = true →
        addFrameValidateOnly v { item := some (.account a) } = (some .multipleAccountData, v)) := by
  refine ⟨?_, ?_, ?_, ?_⟩
  · intro info p fs
    have h := acceptedAccountCount_invariant fs (newStore info p)
    simpa using h
  · intro info p fs
    have hv := (run_mode fs (newStore info p) (newValidateOnly info p) ⟨rfl, rfl, rfl, rfl, rfl⟩).1
    rw [hv]
    have h := acceptedAccountCount_invariant fs (newStore info p)
    simpa using h
  · intro s a hs
    show addAccountDataStore s a = (some .multipleAccountData, s)
    exact addAccountDataStore_already a hs
  · intro v a hs
    show addAccountDataValidateOnly v a = (some .multipleAccountData, v)
    exact addAccountDataValidateOnly_already a hs

/-- Witness for C3 at a concrete validator whose `account_data` is already
set: the second `AccountData` frame is rejected with
`MultipleAccountData`. -/
theorem at_most_one_account_data_witness :
    (PartialBackupStore.accountData
        { meta := { version := 1, backupTime := 0, purpose := .deviceTransfer }
          accountData := some { convOk := true }
          recipients := []
          chats := []
          calls := []
          stickerPacks := [] }).isSome = true ∧
    addFrameStore
        { meta := { version := 1, backupTime := 0, purpose := .deviceTransfer }
          accountData := some { convOk := true }
          recipients := []
          chats := []
          calls := []
          stickerPacks := [] }
        { item := some (.account { convOk := true }) }
      = (some .multipleAccountData,
        { meta := { version := 1, backupTime := 0, purpose := .deviceTransfer }
          accountData := some { convOk := true }
          recipients := []
          chats := []
          calls := []
          stickerPacks := [] }) :=
  ⟨by decide,
   at_most_one_account_data.2.2.1
     { meta := { version := 1, backupTime := 0, purpose := .deviceTransfer }
       accountData := some { convOk := true }
       recipients := []
       chats := []
       calls := []
       stickerPacks := [] }
     { convOk := true } (by decide)⟩

theorem addRecipientStore_dup {s : PartialBackupStore} {r : RecipientProto}
    (hconv : r.convOk = true) (hdup : mapContains s.recipients r.id = true) :
    addRecipientStore s r = (some (.recipientError r.id .duplicateRecipient), s) := by
  unfold addRecipientStore convertRecipient mapInsert
  rw [if_pos hconv]
  dsimp only
  rw [if_pos hdup]

theorem addChatStore_dup {s : PartialBackupStore} {c : ChatProto}
    (hrec : mapContains s.recipients c.recipientId = true)
    (hdup : mapContains s.chats c.id = true) :
    addChatStore s c = (some (.chatError c.id .duplicateId), s) := by
  unfold addChatStore convertChat
  rw [if_pos hrec]
  dsimp only
  rw [if_pos hdup]

theorem addStickerPackStore_dup {s : PartialBackupStore} {sp : StickerPackProto}
    (hlen : sp.packId.length = 16) (hconv : sp.convOk = true)
    (hdup : mapContains s.stickerPacks sp.packId = true) :
    addStickerPackStore s sp = (some (.stickerError (.duplicateId sp.packId)), s) := by
  unfold addStickerPackStore convertStickerPack
  rw [if_pos hlen, if_pos hconv]
  dsimp only
  rw [if_pos hdup]

theorem addRecipientValidateOnly_dup {v : PartialBackupValidateOnly} {r : RecipientProto}
    (hconv : r.convOk = true) (hdup : keySetContains v.recipients r.id = true) :
    addRecipientValidateOnly v r = (some (.recipientError r.id .duplicateRecipient), v) := by
  unfold addRecipientValidateOnly convertRecipient keySetInsert
  rw [if_pos hconv]
  dsimp only
  rw [if_pos hdup]

theorem addChatValidateOnly_dup {v : PartialBackupValidateOnly} {c : ChatProto}
    (hrec : keySetContains v.recipients c.recipientId = true)
    (hdup : keySetContains v.chats c.id = true) :
    addChatValidateOnly v c = (some (.chatError c.id .duplicateId), v) := by
  unfold addChatValidateOnly convertChat
  rw [if_pos hrec]
  dsimp only
  rw [if_pos hdup]

theorem addStickerPackValidateOnly_dup {v : PartialBackupValidateOnly} {sp : StickerPackProto}
    (hlen : sp.packId.length = 16) (hconv : sp.convOk = true)
    (hdup : keySetContains v.stickerPacks sp.packId = true) :
    addStickerPackValidateOnly v sp = (some (.stickerError (.duplicateId sp.packId)), v) := by
  unfold addStickerPackValidateOnly convertStickerPack
  rw [if_pos hlen, if_pos hconv]
  dsimp only
  rw [if_pos hdup]

/-- C4 counterexample: a chat frame whose id 5 duplicates an
already-accepted chat but whose `recipientId` 99 is unknown is rejected
with the recipient-lookup conversion error, not with the kind-specific
`DuplicateId` error (in `add_chat`, conversion runs before the
duplicate-id check). -/
theorem duplicate_id_error_counterexample :
    mapContains
        (runStore (newStore { version := 1, backupTimeMs := 0 } .remoteBackup)
          [{ item := some (.recipient { id := 1, convOk := true }) },
           { item := some (.chat { id := 5, recipientId := 1 }) }]).2.chats 5 = true ∧
    (addFrameStore
        (runStore (newStore { version := 1, backupTimeMs := 0 } .remoteBackup)
          [{ item := some (.recipient { id := 1, convOk := true }) },
           { item := some (.chat { id := 5, recipientId := 1 }) }]).2
        { item := some (.chat { id := 5, recipientId := 99 }) }).1
      = some (.chatError 5 (.noRecipient 99)) ∧
    some (ValidationError.chatError 5 (.noRecipient 99))
      ≠ some (.chatError 5 .duplicateId) := by
  refine ⟨by decide, by decide, by decide⟩

/-- C4 (amended): for each entity kind among recipient, chat and sticker
pack, a frame whose id equals the id of an already-accepted entity of the
same kind and whose payload otherwise converts (its contents convert; for
a chat, its `recipientId` is known; for a sticker pack, its id parses) is
rejected with the kind-specific duplicate-id error, and the validator
state is unchanged, in both modes. -/
theorem duplicate_id_rejected :
    (∀ (s : PartialBackupStore) (r : RecipientProto),
        r.convOk = true → mapContains s.recipients r.id = true →
        addFrameStore s { item := some (.recipient r) }
          = (some (.recipientError r.id .duplicateRecipient), s)) ∧
    (∀ (s : PartialBackupStore) (c : ChatProto),
        mapContains s.recipients c.recipientId = true → mapContains s.chats c.id = true →
        addFrameStore s { item := some (.chat c) }
          = (some (.chatError c.id .duplicateId), s)) ∧
    (∀ (s : PartialBackupStore) (sp : StickerPackProto),
        sp.packId.length = 16 → sp.convOk = true →
        mapContains s.stickerPacks sp.packId = true →
        addFrameStore s { item := some (.stickerPack sp) }
          = (some (.stickerError (.duplicateId sp.packId)), s)) ∧
    (∀ (v : PartialBackupValidateOnly) (r : RecipientProto),
        r.convOk = true → keySetContains v.recipients r.id = true →
        addFrameValidateOnly v { item := some (.recipient r) }
          = (some (.recipientError r.id .duplicateRecipient), v)) ∧
    (∀ (v : PartialBackupValidateOnly) (c : ChatProto),
        keySetContains v.recipients c.recipientId = true → keySetContains v.chats c.id = true →
        addFrameValidateOnly v { item := some (.chat c) }
          = (some (.chatError c.id .duplicateId), v)) ∧
    (∀ (v : PartialBackupValidateOnly) (sp : StickerPackProto),
        sp.packId.length = 16 → sp.convOk = true →
        keySetContains v.stickerPacks sp.packId = true →
        addFrameValidateOnly v { item := some (.stickerPack sp) }
          = (some (.stickerError (.duplicateId sp.packId)), v)) :=
  ⟨fun _ _ h1 h2 => addRecipientStore_dup h1 h2,
   fun _ _ h1 h2 => addChatStore_dup h1 h2,
   fun _ _ h1 h2 h3 => addStickerPackStore_dup h1 h2 h3,
   fun _ _ h1 h2 => addRecipientValidateOnly_dup h1 h2,
   fun _ _ h1 h2 => addChatValidateOnly_dup h1 h2,
   fun _ _ h1 h2 h3 => addStickerPackValidateOnly_dup h1 h2 h3⟩

/-- Witness for C4 (amended) at a concrete state holding chat 5: a second
chat frame with id 5 and a known recipient is rejected with
`DuplicateId` and the state is unchanged. -/
theorem duplicate_id_rejected_witness :
    mapContains (PartialBackupStore.recipients
        { meta := { version := 1, backupTime := 0, purpose := .remoteBackup }
          accountData := none
          recipients := [(1, { id := 1, convOk := true })]
          chats := [(5, { items := [] })]
          calls := []
          stickerPacks := [] }) 1 = true ∧
    mapContains (PartialBackupStore.chats
        { meta := { version := 1, backupTime := 0, purpose := .remoteBackup }
          accountData := none
          recipients := [(1, { id := 1, convOk := true })]
          chats := [(5, { items := [] })]
          calls := []
          stickerPacks := [] }) 5 = true ∧
    addFrameStore
        { meta := { version := 1, backupTime := 0, purpose := .remoteBackup }
          accountData := none
          recipients := [(1, { id := 1, convOk := true })]
          chats := [(5, { items := [] })]
          calls := []
          stickerPacks := [] }
        { item := some (.chat { id := 5, recipientId := 1 }) }
      = (some (.chatError 5 .duplicateId),
        { meta := { version := 1, backupTime := 0, purpose := .remoteBackup }
          accountData := none
          recipients := [(1, { id := 1, convOk := true })]
          chats := [(5, { items := [] })]
          calls := []
          stickerPacks := [] }) :=
  ⟨by decide, by decide,
   duplicate_id_rejected.2.1
     { meta := { version := 1, backupTime := 0, purpose := .remoteBackup }
       accountData := none
       recipients := [(1, { id := 1, convOk := true })]
       chats := [(5, { items := [] })]
       calls := []
       stickerPacks := [] }
     { id := 5, recipientId := 1 } (by decide) (by decide)⟩

theorem addChatStore_noRecipient {s : PartialBackupStore} {c : ChatProto}
    (h : mapContains s.recipients c.recipientId = false) :
    addChatStore s c = (some (.chatError c.id (.noRecipient c.recipientId)), s) := by
  have h' : ¬ mapContains s.recipients c.recipientId = true := by
    rw [h]
    simp
  unfold addChatStore convertChat
  rw [if_neg h']

theorem addChatItemStore_noChat {s : PartialBackupStore} {ci : ChatItemProto}
    (h : mapContains s.chats ci.chatId = false) :
    addChatItemStore s ci = (some (.chatError ci.chatId (.chatItem .noChatForItem)), s) := by
  have h' : ¬ mapContains s.chats ci.chatId = true := by
    rw [h]
    simp
  unfold addChatItemStore
  rw [if_neg h']

theorem addChatItemStore_noAuthor {s : PartialBackupStore} {ci : ChatItemProto}
    (hchat : mapContains s.chats ci.chatId = true)
    (h : mapContains s.recipients ci.authorId = false) :
    addChatItemStore s ci
      = (some (.chatError ci.chatId (.chatItem (.authorNotFound ci.authorId))), s) := by
  have h' : ¬ mapContains s.recipients ci.authorId = true := by
    rw [h]
    simp
  unfold addChatItemStore convertChatItem
  rw [if_pos hchat, if_neg h']

theorem addChatValidateOnly_noRecipient {v : PartialBackupValidateOnly} {c : ChatProto}
    (h : keySetContains v.recipients c.recipientId = false) :
    addChatValidateOnly v c = (some (.chatError c.id (.noRecipient c.recipientId)), v) := by
  have h' : ¬ keySetContains v.recipients c.recipientId = true := by
    rw [h]
    simp
  unfold addChatValidateOnly convertChat
  rw [if_neg h']

theorem addChatItemValidateOnly_noChat {v : PartialBackupValidateOnly} {ci : ChatItemProto}
    (h : keySetContains v.chats ci.chatId = false) :
    addChatItemValidateOnly v ci
      = (some (.chatError ci.chatId (.chatItem .noChatForItem)), v) := by
  have h' : ¬ keySetContains v.chats ci.chatId = true := by
    rw [h]
    simp
  unfold addChatItemValidateOnly
  rw [if_neg h']

theorem addChatItemValidateOnly_noAuthor {v : PartialBackupValidateOnly} {ci : ChatItemProto}
    (hchat : keySetContains v.chats ci.chatId = true)
    (h : keySetContains v.recipients ci.authorId = false) :
    addChatItemValidateOnly v ci
      = (some (.chatError ci.chatId (.chatItem (.authorNotFound ci.authorId))), v) := by
  have h' : ¬ keySetContains v.recipients ci.authorId = true := by
    rw [h]
    simp
  unfold addChatItemValidateOnly convertChatItem
  rw [if_pos hchat, if_neg h']

theorem isPrefixOf_append_left {p l t : List Char} (h : p.isPrefixOf l = true) :
    p.isPrefixOf (l ++ t) = true := by
  induction p generalizing l with
  | nil =>
    cases l ++ t with
    | nil => rfl
    | cons a as => rfl
  | cons c cs ih =>
    cases l with
    | nil => simp [List.isPrefixOf] at h
    | cons d ds =>
      rw [List.cons_append]
      unfold List.isPrefixOf at h ⊢
      rw [Bool.and_eq_true] at h ⊢
      exact ⟨h.1, ih h.2⟩

theorem listContainsSub_of_isPrefixOf {pat l : List Char} (h : pat.isPrefixOf l = true) :
    listContainsSub pat l = true := by
  cases l with
  | nil =>
    cases pat with
    | nil => rfl
    | cons c cs => simp [List.isPrefixOf] at h
  | cons c cs =>
    unfold listContainsSub
    rw [h, Bool.true_or]

theorem listContainsSub_append_right (pat a b : List Char) (h : listContainsSub pat b = true) :
    listContainsSub pat (a ++ b) = true := by
  induction a with
  | nil => exact h
  | cons c rest ih =>
    rw [List.cons_append]
    unfold listContainsSub
    rw [ih, Bool.or_true]

theorem authorNotFound_message_contains_no_record (cid aid : Nat) :
    strContainsSub
      (ValidationError.message (.chatError cid (.chatItem (.authorNotFound aid))))
      "no record" = true := by
  unfold strContainsSub ValidationError.message ChatError.message ChatItemError.message
  rw [String.data_append]
  apply listContainsSub_append_right
  rw [String.data_append]
  apply listContainsSub_of_isPrefixOf
  apply isPrefixOf_append_left
  decide

/-- C5: a chat frame whose `recipientId` is not a known recipient is
rejected; a chat-item frame whose `chatId` does not name a previously
accepted chat is rejected with `NoChatForItem` wrapped in a
`ChatFrameError`; a chat-item frame whose `authorId` is not a known
recipient is rejected with an error whose message contains "no record" —
in both modes, with the state unchanged. -/
theorem referential_closure :
    (∀ (s : PartialBackupStore) (c : ChatProto),
        mapContains s.recipients c.recipientId = false →
        addFrameStore s { item := some (.chat c) }
          = (some (.chatError c.id (.noRecipient c.recipientId)), s)) ∧
    (∀ (s : PartialBackupStore) (ci : ChatItemProto),
        mapContains s.chats ci.chatId = false →
        addFrameStore s { item := some (.chatItem ci) }
          = (some (.chatError ci.chatId (.chatItem .noChatForItem)), s)) ∧
    (∀ (s : PartialBackupStore) (ci : ChatItemProto),
        mapContains s.chats ci.chatId = true →
        mapContains s.recipients ci.authorId = false →
        addFrameStore s { item := some (.chatItem ci) }
            = (some (.chatError ci.chatId (.chatItem (.authorNotFound ci.authorId))), s) ∧
          strContainsSub
            (ValidationError.message (.chatError ci.chatId (.chatItem (.authorNotFound ci.authorId))))
            "no record" = true) ∧
    (∀ (v : PartialBackupValidateOnly) (c : ChatProto),
        keySetContains v.recipients c.recipientId = false →
        addFrameValidateOnly v { item := some (.chat c) }
          = (some (.chatError c.id (.noRecipient c.recipientId)), v)) ∧
    (∀ (v : PartialBackupValidateOnly) (ci : ChatItemProto),
        keySetContains v.chats ci.chatId = false →
        addFrameValidateOnly v { item := some (.chatItem ci) }
          = (some (.chatError ci.chatId (.chatItem .noChatForItem)), v)) ∧
    (∀ (v : PartialBackupValidateOnly) (ci : ChatItemProto),
        keySetContains v.chats ci.chatId = true →
        keySetContains v.recipients ci.authorId = false →
        addFrameValidateOnly v { item := some (.chatItem ci) }
          = (some (.chatError ci.chatId (.chatItem (.authorNotFound ci.authorId))), v)) :=
  ⟨fun _ _ h => addChatStore_noRecipient h,
   fun _ _ h => addChatItemStore_noChat h,
   fun _ ci h1 h2 =>
     ⟨addChatItemStore_noAuthor h1 h2,
      authorNotFound_message_contains_no_record ci.chatId ci.authorId⟩,
   fun _ _ h => addChatValidateOnly_noRecipient h,
   fun _ _ h => addChatItemValidateOnly_noChat h,
   fun _ _ h1 h2 => addChatItemValidateOnly_noAuthor h1 h2⟩

/-- Witness for C5 at a concrete state holding chat 5 and recipient 1: a
chat item authored by the unknown recipient 9 is rejected and the error's
message contains "no record". -/
theorem referential_closure_witness :
    mapContains (PartialBackupStore.chats
        { meta := { version := 1, backupTime := 0, purpose := .remoteBackup }
          accountData := none
          recipients := [(1, { id := 1, convOk := true })]
          chats := [(5, { items := [] })]
          calls := []
          stickerPacks := [] }) 5 = true ∧
    mapContains (PartialBackupStore.recipients
        { meta := { version := 1, backupTime := 0, purpose := .remoteBackup }
          accountData := none
          recipients := [(1, { id := 1, convOk := true })]
          chats := [(5, { items := [] })]
          calls := []
          stickerPacks := [] }) 9 = false ∧
    addFrameStore
        { meta := { version := 1, backupTime := 0, purpose := .remoteBackup }
          accountData := none
          recipients := [(1, { id := 1, convOk := true })]
          chats := [(5, { items := [] })]
          calls := []
          stickerPacks := [] }
        { item := some (.chatItem { chatId := 5, authorId := 9, call := none }) }
      = (some (.chatError 5 (.chatItem (.authorNotFound 9))),
        { meta := { version := 1, backupTime := 0, purpose := .remoteBackup }
          accountData := none
          recipients := [(1, { id := 1, convOk := true })]
          chats := [(5, { items := [] })]
          calls := []
          stickerPacks := [] }) ∧
    strContainsSub
      (ValidationError.message (.chatError 5 (.chatItem (.authorNotFound 9))))
      "no record" = true :=
  ⟨by decide, by decide,
   (referential_closure.2.2.1
     { meta := { version := 1, backupTime := 0, purpose := .remoteBackup }
       accountData := none
       recipients := [(1, { id := 1, convOk := true })]
       chats := [(5, { items := [] })]
       calls := []
       stickerPacks := [] }
     { chatId := 5, authorId := 9, call := none } (by decide) (by decide)).1,
   (referential_closure.2.2.1
     { meta := { version := 1, backupTime := 0, purpose := .remoteBackup }
       accountData := none
       recipients := [(1, { id := 1, convOk := true })]
       chats := [(5, { items := [] })]
       calls := []
       stickerPacks := [] }
     { chatId := 5, authorId := 9, call := none } (by decide) (by decide)).2⟩

/-- C7 counterexample: `Display`/`IntoStaticStr` derived by `strum` render
the longest `serialize` alias, and the length tie between the
underscored and hyphenated spellings resolves to the last one
(`Iterator::max_by_key`), so serialization produces "device-transfer" and
"remote-backup" — not the canonical "device_transfer"/"remote_backup" the
claim states. -/
theorem purpose_to_string_counterexample :
    Purpose.toStr .deviceTransfer = "device-transfer" ∧
    Purpose.toStr .remoteBackup = "remote-backup" ∧
    ("device-transfer" : String) ≠ "device_transfer" ∧
    ("remote-backup" : String) ≠ "remote_backup" := by
  refine ⟨by decide, by decide, by decide, by decide⟩

/-- C7 (amended): parsing a `Purpose` accepts exactly the listed aliases
case-sensitively and rejects any other string; converting a `Purpose` to a
string produces exactly "device-transfer" for `DeviceTransfer` and
"remote-backup" for `RemoteBackup` (the longest alias, hyphenated spelling
winning the tie); and the integer tags are `DeviceTransfer = 0`,
`RemoteBackup = 1`. -/
theorem purpose_string_and_tag_representation :
    (∀ s : String,
        (Purpose.fromStr s = some .deviceTransfer
            ↔ (s = "device_transfer" ∨ s = "device-transfer" ∨ s = "transfer")) ∧
        (Purpose.fromStr s = some .remoteBackup
            ↔ (s = "remote_backup" ∨ s = "remote-backup" ∨ s = "backup"))) ∧
    (∀ s : String,
        ¬(s = "device_transfer" ∨ s = "device-transfer" ∨ s = "transfer" ∨
          s = "remote_backup" ∨ s = "remote-backup" ∨ s = "backup") →
        Purpose.fromStr s = none) ∧
    Purpose.toStr .deviceTransfer = "device-transfer" ∧
    Purpose.toStr .remoteBackup = "remote-backup" ∧
    Purpose.tag .deviceTransfer = 0 ∧
    Purpose.tag .remoteBackup = 1 ∧
    Purpose.tryFromPrimitive 0 = some .deviceTransfer ∧
    Purpose.tryFromPrimitive 1 = some .remoteBackup ∧
    (∀ n : Nat, 2 ≤ n → Purpose.tryFromPrimitive n = none) := by
  refine ⟨?_, ?_, by decide, by decide, by decide, by decide, by decide, by decide, ?_⟩
  · intro s
    unfold Purpose.fromStr
    split_ifs <;> simp_all
  · intro s h
    unfold Purpose.fromStr
    split_ifs with h1 h2 h3 h4 h5 h6
    · exact absurd (Or.inl h1) h
    · exact absurd (Or.inr (Or.inl h2)) h
    · exact absurd (Or.inr (Or.inr (Or.inl h3))) h
    · exact absurd (Or.inr (Or.inr (Or.inr (Or.inl h4)))) h
    · exact absurd (Or.inr (Or.inr (Or.inr (Or.inr (Or.inl h5))))) h
    · exact absurd (Or.inr (Or.inr (Or.inr (Or.inr (Or.inr h6))))) h
    · rfl
  · intro n hn
    unfold Purpose.tryFromPrimitive
    split_ifs with h1 h2
    · omega
    · omega
    · rfl

/-- Witness for C7 (amended): the parser accepts "transfer" and rejects
"Transfer", and the tags of an out-of-range primitive are rejected. -/
theorem purpose_string_and_tag_representation_witness :
    Purpose.fromStr "transfer" = some .deviceTransfer ∧
    (¬(("Transfer" : String) = "device_transfer" ∨ ("Transfer" : String) = "device-transfer" ∨
        ("Transfer" : String) = "transfer" ∨ ("Transfer" : String) = "remote_backup" ∨
        ("Transfer" : String) = "remote-backup" ∨ ("Transfer" : String) = "backup")) ∧
    Purpose.fromStr "Transfer" = none ∧
    2 ≤ 7 ∧ Purpose.tryFromPrimitive 7 = none :=
  ⟨((purpose_string_and_tag_representation.1 "transfer").1).mpr (Or.inr (Or.inr rfl)),
   by decide,
   purpose_string_and_tag_representation.2.1 "Transfer" (by decide),
   by decide,
   purpose_string_and_tag_representation.2.2.2.2.2.2.2.2 7 (by decide)⟩

end MessageBackup

namespace ChatServerRequests

theorem head_filterMap_eq_findSome {α β : Type} (f : α → Option β) (l : List α) :
    (l.filterMap f).head? = l.findSome? f := by
  induction l with
  | nil => rfl
  | cons a rest ih =>
    rw [List.filterMap_cons, List.findSome?_cons]
    cases f a with
    | none => exact ih
    | some b => rfl

theorem getLast_filterMap_eq_reverse_findSome {α β : Type} (f : α → Option β) (l : List α) :
    (l.filterMap f).getLast? = l.reverse.findSome? f := by
  rw [← List.head?_reverse, ← List.filterMap_reverse]
  exact head_filterMap_eq_findSome f l.reverse

theorem streamIncomingMessages_flatten (reqs : List ServerRequest) :
    streamIncomingMessages reqs
      = (reqs.map (fun r => (handleServerRequest r).toList)).flatten := by
  unfold streamIncomingMessages
  induction reqs with
  | nil => rfl
  | cons r rest ih =>
    rw [List.map_cons, List.flatten_cons, List.filterMap_cons]
    cases handleServerRequest r with
    | none =>
      dsimp only [Option.toList]
      rw [List.nil_append]
      exact ih
    | some m =>
      dsimp only [Option.toList]
      rw [List.singleton_append, ih]
      rfl

/-- C6: each consumed framed request contributes its own (possibly empty)
yield to the output stream; a non-PUT verb, a missing/empty path, or an
unknown path yields nothing; a PUT to /api/v1/queue/empty yields exactly
one `QueueEmpty`; a PUT to /api/v1/message yields exactly one
`IncomingMessage` whose `server_delivery_timestamp` is the value of the
last header that case-insensitively matches `x-signal-timestamp` and
parses as unsigned 64-bit milliseconds (zero when missing or unparsable)
and whose envelope is the request body, or empty when the body is
absent. -/
theorem demux_path_filtering :
    (∀ reqs : List ServerRequest,
        streamIncomingMessages reqs
          = (reqs.map (fun r => (handleServerRequest r).toList)).flatten) ∧
    (∀ r : ServerRequest, r.verb.getD "" ≠ "PUT" → handleServerRequest r = none) ∧
    (∀ r : ServerRequest, r.verb.getD "" = "PUT" →
        r.path.getD "" ≠ "/api/v1/queue/empty" → r.path.getD "" ≠ "/api/v1/message" →
        handleServerRequest r = none) ∧
    (∀ r : ServerRequest, r.verb.getD "" = "PUT" →
        r.path.getD "" = "/api/v1/queue/empty" →
        handleServerRequest r = some .queueEmpty) ∧
    (∀ r : ServerRequest, r.verb.getD "" = "PUT" →
        r.path.getD "" = "/api/v1/message" →
        handleServerRequest r
          = some (.incomingMessage (r.id.getD 0) (r.body.getD [])
              ((lastTimestampOfHeaders r.headers).getD 0))) := by
  refine ⟨streamIncomingMessages_flatten, ?_, ?_, ?_, ?_⟩
  · intro r h
    unfold handleServerRequest
    rw [if_pos h]
  · intro r hverb h1 h2
    unfold handleServerRequest
    rw [if_neg (by rw [hverb]; exact fun hc => hc rfl), if_neg h1, if_neg h2]
  · intro r hverb hpath
    unfold handleServerRequest
    rw [if_neg (by rw [hverb]; exact fun hc => hc rfl), if_pos hpath]
  · intro r hverb hpath
    unfold handleServerRequest
    rw [if_neg (by rw [hverb]; exact fun hc => hc rfl),
      if_neg (by rw [hpath]; exact fun hc => nomatch hc), if_pos hpath]
    unfold lastTimestampOfHeaders
    rw [getLast_filterMap_eq_reverse_findSome]

/-- Witness for C6 at concrete requests: a GET is dropped, a PUT to
/api/v1/queue/empty yields `QueueEmpty`, and a PUT to /api/v1/message with
two matching headers takes the later parsable value 99. -/
theorem demux_path_filtering_witness :
    (ServerRequest.verb ⟨some "GET", some "/api/v1/message", [], none, none⟩).getD "" ≠ "PUT" ∧
    handleServerRequest ⟨some "GET", some "/api/v1/message", [], none, none⟩ = none ∧
    handleServerRequest ⟨some "PUT", some "/api/v1/queue/empty", [], none, none⟩
      = some .queueEmpty ∧
    handleServerRequest
        ⟨some "PUT", some "/api/v1/message",
          ["X-Signal-TimeStamp: 42", "x-signal-timestamp:  99 ", "other: 3"],
          some [1, 2], some 7⟩
      = some (.incomingMessage 7 [1, 2] 99) :=
  ⟨by decide,
   demux_path_filtering.2.1 ⟨some "GET", some "/api/v1/message", [], none, none⟩ (by decide),
   demux_path_filtering.2.2.2.1 ⟨some "PUT", some "/api/v1/queue/empty", [], none, none⟩
     (by decide) (by decide),
   by
    rw [demux_path_filtering.2.2.2.2
      ⟨some "PUT", some "/api/v1/message",
        ["X-Signal-TimeStamp: 42", "x-signal-timestamp:  99 ", "other: 3"],
        some [1, 2], some 7⟩ (by decide) (by decide)]
    decide⟩

end ChatServerRequests


namespace Enclave

theorem char_toNat_ofNat {n : Nat} (h : n.isValidChar) : (Char.ofNat n).toNat = n := by
  rw [Char.ofNat, dif_pos h]
  rfl

theorem utf8EncodeChar_ascii {c : Char} (h : c.toNat < 0x80) : utf8EncodeChar c = [c.toNat] := by
  unfold utf8EncodeChar
  rw [if_pos h]

theorem utf8DecodeStep_encodeChar (c : Char) (l : List Nat) :
    utf8DecodeStep (utf8EncodeChar c ++ l) = some (c, l) := by
  have hv : Nat.isValidChar c.toNat := c.valid
  have hofnat : Char.ofNat c.toNat = c := Char.ofNat_toNat c
  have hmax : c.toNat < 0x110000 := by
    rcases hv with h1 | ⟨h1, h2⟩
    · omega
    · omega
  unfold utf8EncodeChar
  by_cases h1 : c.toNat < 0x80
  · rw [if_pos h1, List.cons_append, List.nil_append]
    unfold utf8DecodeStep
    try dsimp only
    rw [if_pos h1, hofnat]
  · rw [if_neg h1]
    by_cases h2 : c.toNat < 0x800
    · rw [if_pos h2]
      rw [List.cons_append, List.cons_append, List.nil_append]
      unfold utf8DecodeStep
      try dsimp only
      rw [if_neg (by omega)]
      rw [if_pos (by simp only [Bool.and_eq_true, decide_eq_true_eq]; omega)]
      try dsimp only
      rw [if_pos (by unfold isContByte; simp only [Bool.and_eq_true, decide_eq_true_eq]; omega)]
      rw [show (0xC0 + c.toNat / 64 - 0xC0) * 64 + (0x80 + c.toNat % 64 - 0x80) = c.toNat from by
        omega]
      rw [hofnat]
    · rw [if_neg h2]
      by_cases h3 : c.toNat < 0x10000
      · rw [if_pos h3]
        rw [List.cons_append, List.cons_append, List.cons_append, List.nil_append]
        unfold utf8DecodeStep
        try dsimp only
        rw [if_neg (by omega)]
        rw [if_neg (by simp only [Bool.and_eq_true, decide_eq_true_eq]; omega)]
        rw [if_pos (by simp only [Bool.and_eq_true, decide_eq_true_eq]; omega)]
        try dsimp only
        rw [if_pos (by
          unfold isContByte
          simp only [Bool.and_eq_true, decide_eq_true_eq]
          split_ifs with he0 hed
          · omega
          · omega
          · omega
          · omega)]
        rw [show (0xE0 + c.toNat / 4096 - 0xE0) * 4096 + (0x80 + c.toNat / 64 % 64 - 0x80) * 64 +
              (0x80 + c.toNat % 64 - 0x80) = c.toNat from by omega]
        rw [hofnat]
      · rw [if_neg h3]
        rw [List.cons_append, List.cons_append, List.cons_append, List.cons_append,
          List.nil_append]
        unfold utf8DecodeStep
        try dsimp only
        rw [if_neg (by omega)]
        rw [if_neg (by simp only [Bool.and_eq_true, decide_eq_true_eq]; omega)]
        rw [if_neg (by simp only [Bool.and_eq_true, decide_eq_true_eq]; omega)]
        rw [if_pos (by simp only [Bool.and_eq_true, decide_eq_true_eq]; omega)]
        try dsimp only
        rw [if_pos (by
          unfold isContByte
          simp only [Bool.and_eq_true, decide_eq_true_eq]
          split_ifs with he0 hed
          · omega
          · omega
          · omega
          · omega)]
        rw [show (0xF0 + c.toNat / 0x40000 - 0xF0) * 0x40000 +
              (0x80 + c.toNat / 4096 % 64 - 0x80) * 4096 +
              (0x80 + c.toNat / 64 % 64 - 0x80) * 64 + (0x80 + c.toNat % 64 - 0x80)
              = c.toNat from by omega]
        rw [hofnat]

theorem utf8DecodeStep_shrinks {l : List Nat} {c : Char} {rest2 : List Nat} :
    utf8DecodeStep l = some (c, rest2) → rest2.length < l.length := by
  cases l with
  | nil =>
    intro h
    simp [utf8DecodeStep] at h
  | cons b0 rest =>
    dsimp only [utf8DecodeStep]
    repeat' split
    all_goals intro h
    all_goals first
      | exact Option.noConfusion h
      | (simp only [Option.some.injEq, Prod.mk.injEq] at h
         obtain ⟨-, rfl⟩ := h
         simp only [List.length_cons]
         omega)

theorem utf8DecodeF_fuel {fuel1 : Nat} :
    ∀ (fuel2 : Nat) (l : List Nat), l.length ≤ fuel1 → l.length ≤ fuel2 →
      utf8DecodeF fuel1 l = utf8DecodeF fuel2 l := by
  induction fuel1 with
  | zero =>
    intro fuel2 l h1 h2
    cases l with
    | nil => cases fuel2 <;> rfl
    | cons b rest => simp at h1
  | succ f ih =>
    intro fuel2 l h1 h2
    cases l with
    | nil => cases fuel2 <;> rfl
    | cons b rest =>
      cases fuel2 with
      | zero => simp at h2
      | succ f2 =>
        unfold utf8DecodeF
        cases hstep : utf8DecodeStep (b :: rest) with
        | none => rfl
        | some pr =>
          obtain ⟨c, rest2⟩ := pr
          have hlen := utf8DecodeStep_shrinks hstep
          simp only [List.length_cons] at h1 h2 hlen
          dsimp only
          rw [ih f2 rest2 (by omega) (by omega)]

theorem utf8Decode_encodeChar (c : Char) {l : List Nat} {cs : List Char}
    (h : utf8Decode l = some cs) :
    utf8Decode (utf8EncodeChar c ++ l) = some (c :: cs) := by
  obtain ⟨b, tail, henc⟩ : ∃ b tail, utf8EncodeChar c = b :: tail := by
    unfold utf8EncodeChar
    split_ifs
    · exact ⟨_, _, rfl⟩
    · exact ⟨_, _, rfl⟩
    · exact ⟨_, _, rfl⟩
    · exact ⟨_, _, rfl⟩
  unfold utf8Decode at h ⊢
  rw [henc, List.cons_append, List.length_cons]
  unfold utf8DecodeF
  rw [← List.cons_append, ← henc, utf8DecodeStep_encodeChar c l]
  dsimp only
  rw [utf8DecodeF_fuel l.length l (by rw [List.length_append]; omega) (Nat.le_refl _), h]
  rfl

theorem utf8Decode_encodeChars (cl : List Char) :
    utf8Decode ((cl.map utf8EncodeChar).flatten) = some cl := by
  induction cl with
  | nil => rfl
  | cons c rest ih =>
    rw [List.map_cons, List.flatten_cons]
    exact utf8Decode_encodeChar c ih

theorem utf8Decode_encode (s : String) : utf8Decode (utf8Encode s) = some s.data :=
  utf8Decode_encodeChars s.data

theorem pathByteAllowed_facts {b : Nat} (h : pathByteAllowed b = true) :
    b ≠ 0x3F ∧ b ≠ 0x23 ∧ b < 0x80 := by
  unfold pathByteAllowed at h
  simp only [Bool.or_eq_true, Bool.and_eq_true, beq_iff_eq, decide_eq_true_eq] at h
  omega

theorem pqScanPath_allowed {l : List Nat} (h : l.all pathByteAllowed = true) :
    pqScanPath l = some l := by
  induction l with
  | nil => rfl
  | cons b rest ih =>
    rw [List.all_cons, Bool.and_eq_true] at h
    obtain ⟨hb, hrest⟩ := h
    obtain ⟨hb1, hb2, _⟩ := pathByteAllowed_facts hb
    unfold pqScanPath
    rw [if_neg (by simp only [beq_iff_eq]; exact hb1)]
    rw [if_neg (by simp only [beq_iff_eq]; exact hb2)]
    rw [if_pos hb, ih hrest]
    rfl

theorem utf8Encode_ascii {cl : List Char} (h : ∀ c ∈ cl, c.toNat < 0x80) :
    (cl.map utf8EncodeChar).flatten = cl.map (fun c => c.toNat) := by
  induction cl with
  | nil => rfl
  | cons c rest ih =>
    rw [List.map_cons, List.flatten_cons, List.map_cons,
      utf8EncodeChar_ascii (h c (List.mem_cons_self c rest)), List.singleton_append]
    rw [ih (fun x hx => h x (List.mem_cons_of_mem c hx))]

theorem pathAndQueryTryFrom_allowed {s : String}
    (h : ∀ c ∈ s.data, c.toNat < 0x80 ∧ pathByteAllowed c.toNat = true) :
    pathAndQueryTryFrom s = some s := by
  have henc : utf8Encode s = s.data.map (fun c => c.toNat) :=
    utf8Encode_ascii (fun c hc => (h c hc).1)
  unfold pathAndQueryTryFrom
  rw [henc]
  rw [pqScanPath_allowed (by
    rw [List.all_eq_true]
    intro b hb
    rw [List.mem_map] at hb
    obtain ⟨c, hc, rfl⟩ := hb
    exact (h c hc).2)]
  dsimp only [Option.bind]
  rw [← henc, utf8Decode_encode]
  rfl

theorem hexDigitChar_spec {m : Nat} (h : m < 16) :
    (hexDigitChar m).toNat < 0x80 ∧ pathByteAllowed (hexDigitChar m).toNat = true := by
  unfold hexDigitChar
  by_cases h10 : m < 10
  · rw [if_pos h10]
    rw [char_toNat_ofNat (Or.inl (by omega))]
    refine ⟨by omega, ?_⟩
    unfold pathByteAllowed
    simp only [Bool.or_eq_true, Bool.and_eq_true, beq_iff_eq, decide_eq_true_eq]
    omega
  · rw [if_neg h10]
    rw [char_toNat_ofNat (Or.inl (by omega))]
    refine ⟨by omega, ?_⟩
    unfold pathByteAllowed
    simp only [Bool.or_eq_true, Bool.and_eq_true, beq_iff_eq, decide_eq_true_eq]
    omega

theorem hexEncode_chars_spec (bs : List Nat) :
    ∀ c ∈ (hexEncode bs).data, c.toNat < 0x80 ∧ pathByteAllowed c.toNat = true := by
  intro c hc
  unfold hexEncode at hc
  simp only [List.mem_flatten, List.mem_map] at hc
  obtain ⟨l, ⟨b, _, rfl⟩, hcl⟩ := hc
  unfold hexByteChars at hcl
  simp only [List.mem_cons, List.not_mem_nil, or_false] at hcl
  rcases hcl with rfl | rfl
  · exact hexDigitChar_spec (Nat.mod_lt _ (by omega))
  · exact hexDigitChar_spec (Nat.mod_lt _ (by omega))

theorem v1_chars_allowed :
    ∀ c ∈ ("/v1/" : String).data, c.toNat < 0x80 ∧ pathByteAllowed c.toNat = true := by
  decide

theorem discovery_chars_allowed :
    ∀ c ∈ ("/discovery" : String).data, c.toNat < 0x80 ∧ pathByteAllowed c.toNat = true := by
  decide

/-- C8 counterexample: the byte string [0x20] is valid UTF-8 (a space),
but Nitro::url_path (and Tpm2Snp::url_path) panics — modelled as `none` —
because `PathAndQuery::try_from` rejects the space, instead of returning
"/v1/ " as the claim states for every valid-UTF-8 measurement. -/
theorem nitro_url_path_counterexample :
    utf8Decode [0x20] = some [' '] ∧
    nitroUrlPath [0x20] = none ∧
    tpm2snpUrlPath [0x20] = none ∧
    (none : Option String) ≠ some ("/v1/" ++ String.mk [' ']) := by
  refine ⟨by decide, by decide, by decide, by decide⟩

/-- C8 (amended): for every enclave measurement byte string, Cdsi::url_path
returns /v1/{hex(enclave)}/discovery and Sgx::url_path returns
/v1/{hex(enclave)}; for every measurement that is valid UTF-8 and whose
decoded characters all lie in the http crate's allowed path-byte set (so
that /v1/{utf8} is a valid PathAndQuery), Nitro::url_path and
Tpm2Snp::url_path return /v1/{utf8(enclave)}. -/
theorem enclave_url_paths :
    (∀ bs : List Nat, cdsiUrlPath bs = some ("/v1/" ++ hexEncode bs ++ "/discovery")) ∧
    (∀ bs : List Nat, sgxUrlPath bs = some ("/v1/" ++ hexEncode bs)) ∧
    (∀ s : String, (∀ c ∈ s.data, c.toNat < 0x80 ∧ pathByteAllowed c.toNat = true) →
        nitroUrlPath (utf8Encode s) = some ("/v1/" ++ s) ∧
        tpm2snpUrlPath (utf8Encode s) = some ("/v1/" ++ s)) := by
  refine ⟨?_, ?_, ?_⟩
  · intro bs
    unfold cdsiUrlPath
    apply pathAndQueryTryFrom_allowed
    intro c hc
    rw [String.data_append, String.data_append] at hc
    rcases List.mem_append.mp hc with h1 | h2
    · rcases List.mem_append.mp h1 with ha | hb
      · exact v1_chars_allowed c ha
      · exact hexEncode_chars_spec bs c hb
    · exact discovery_chars_allowed c h2
  · intro bs
    unfold sgxUrlPath
    apply pathAndQueryTryFrom_allowed
    intro c hc
    rw [String.data_append] at hc
    rcases List.mem_append.mp hc with h1 | h2
    · exact v1_chars_allowed c h1
    · exact hexEncode_chars_spec bs c h2
  · intro s hs
    have hmain : pathAndQueryTryFrom ("/v1/" ++ s) = some ("/v1/" ++ s) := by
      apply pathAndQueryTryFrom_allowed
      intro c hc
      rw [String.data_append] at hc
      rcases List.mem_append.mp hc with h1 | h2
      · exact v1_chars_allowed c h1
      · exact hs c h2
    constructor
    · unfold nitroUrlPath
      rw [utf8Decode_encode]
      exact hmain
    · unfold tpm2snpUrlPath
      rw [utf8Decode_encode]
      exact hmain

/-- Witness for C8 (amended) at the measurement "abc" (for Nitro and
Tpm2Snp) and the measurement bytes [0xab, 0x01] (for Cdsi and Sgx). -/
theorem enclave_url_paths_witness :
    (("abc" : String).data.all
        (fun c => decide (c.toNat < 0x80) && pathByteAllowed c.toNat) = true) ∧
    nitroUrlPath (utf8Encode "abc") = some ("/v1/" ++ "abc") ∧
    tpm2snpUrlPath (utf8Encode "abc") = some ("/v1/" ++ "abc") ∧
    cdsiUrlPath [0xab, 0x01] = some ("/v1/" ++ hexEncode [0xab, 0x01] ++ "/discovery") ∧
    sgxUrlPath [0xab, 0x01] = some ("/v1/" ++ hexEncode [0xab, 0x01]) :=
  ⟨by decide,
   (enclave_url_paths.2.2 "abc" (by decide)).1,
   (enclave_url_paths.2.2 "abc" (by decide)).2,
   enclave_url_paths.1 [0xab, 0x01],
   enclave_url_paths.2.1 [0xab, 0x01]⟩

theorem multiRouteOutcomeAux_cooldown {W : Type} (now : Nat) :
    ∀ (routes : List (SingleRouteManager × Except WebSocketConnectError W)) (t0 : Nat),
      (∀ r ∈ routes, now < r.1.cooldownUntil) →
      ∃ t, multiRouteOutcomeAux now false (some t0) routes
        = ConnectionAttemptOutcome.waitUntil t := by
  intro routes
  induction routes with
  | nil =>
    intro t0 _
    exact ⟨t0, rfl⟩
  | cons r rest ih =>
    intro t0 h
    obtain ⟨m, att⟩ := r
    unfold multiRouteOutcomeAux
    rw [if_pos (h (m, att) (List.mem_cons_self _ _))]
    exact ih _ (fun x hx => h x (List.mem_cons_of_mem _ hx))

theorem multiRouteOutcome_all_cooldown {W : Type} (now : Nat)
    (routes : List (SingleRouteManager × Except WebSocketConnectError W))
    (hne : routes ≠ []) (h : ∀ r ∈ routes, now < r.1.cooldownUntil) :
    ∃ t, multiRouteOutcome now routes = ConnectionAttemptOutcome.waitUntil t := by
  unfold multiRouteOutcome
  cases routes with
  | nil => exact absurd rfl hne
  | cons r rest =>
    obtain ⟨m, att⟩ := r
    unfold multiRouteOutcomeAux
    rw [if_pos (h (m, att) (List.mem_cons_self _ _))]
    exact multiRouteOutcomeAux_cooldown now rest _ (fun x hx => h x (List.mem_cons_of_mem _ hx))

/-- C9: whenever the connection manager yields a cooldown outcome or
reports timeout, EnclaveEndpointConnection::connect returns
Err(ConnectionTimedOut) without running the attestation handshake (the
Bool component is false); in particular, when every inner route of a
multi-route manager is in cooldown, connect returns ConnectionTimedOut. -/
theorem cooldown_returns_connection_timed_out :
    (∀ (W A : Type) (t : Nat) (attest : W → Except AttestedConnectionError A),
        enclaveConnect (.cooldown t) attest
          = some (.error .connectionTimedOut, false)) ∧
    (∀ (W A : Type) (attest : W → Except AttestedConnectionError A),
        enclaveConnect .connectionTimedOut attest
          = some (.error .connectionTimedOut, false)) ∧
    (∀ (W A : Type) (now : Nat)
        (routes : List (SingleRouteManager × Except WebSocketConnectError W))
        (attest : W → Except AttestedConnectionError A),
        routes ≠ [] → (∀ r ∈ routes, now < r.1.cooldownUntil) →
        enclaveConnect (serviceStateOfOutcome (multiRouteOutcome now routes)) attest
          = some (.error .connectionTimedOut, false)) := by
  refine ⟨fun W A t attest => rfl, fun W A attest => rfl, ?_⟩
  intro W A now routes attest hne h
  obtain ⟨t, ht⟩ := multiRouteOutcome_all_cooldown now routes hne h
  rw [ht]
  rfl

/-- Witness for C9: with one inner route cooling down until instant 10 and
the clock at 0, the multi-route manager yields WaitUntil and connect
returns ConnectionTimedOut without attesting. -/
theorem cooldown_returns_connection_timed_out_witness :
    ([({ cooldownUntil := 10 }, Except.error WebSocketConnectError.transport)] :
        List (SingleRouteManager × Except WebSocketConnectError Nat)) ≠ [] ∧
    (([({ cooldownUntil := 10 }, Except.error WebSocketConnectError.transport)] :
        List (SingleRouteManager × Except WebSocketConnectError Nat)).all
      (fun r => decide (0 < r.1.cooldownUntil)) = true) ∧
    enclaveConnect
        (serviceStateOfOutcome (multiRouteOutcome 0
          ([({ cooldownUntil := 10 }, Except.error WebSocketConnectError.transport)] :
            List (SingleRouteManager × Except WebSocketConnectError Nat))))
        (fun _ : Nat => (Except.ok true : Except AttestedConnectionError Bool))
      = some (.error .connectionTimedOut, false) :=
  ⟨List.cons_ne_nil _ _,
   by decide,
   cooldown_returns_connection_timed_out.2.2 Nat Bool 0
     [({ cooldownUntil := 10 }, Except.error WebSocketConnectError.transport)]
     (fun _ => Except.ok true)
     (List.cons_ne_nil _ _)
     (by
       intro r hr
       rw [List.mem_singleton] at hr
       subst hr
       decide)⟩

/-- C10: Nitro::url_path and Tpm2Snp::url_path panic — modelled as `none`
— when the measurement bytes are not valid UTF-8 or when the resulting
/v1/… string is not a valid URI path-and-query; they return a path
exactly under the precondition that the measurement decodes as UTF-8 and
PathAndQuery::try_from accepts the result. -/
theorem nitro_tpm2snp_url_path_panics :
    (∀ bs : List Nat, utf8Decode bs = none →
        nitroUrlPath bs = none ∧ tpm2snpUrlPath bs = none) ∧
    (∀ (bs : List Nat) (cs : List Char), utf8Decode bs = some cs →
        pathAndQueryTryFrom ("/v1/" ++ String.mk cs) = none →
        nitroUrlPath bs = none ∧ tpm2snpUrlPath bs = none) ∧
    (∀ (bs : List Nat) (cs : List Char) (p : String), utf8Decode bs = some cs →
        pathAndQueryTryFrom ("/v1/" ++ String.mk cs) = some p →
        nitroUrlPath bs = some p ∧ tpm2snpUrlPath bs = some p) := by
  refine ⟨?_, ?_, ?_⟩
  · intro bs hd
    unfold nitroUrlPath tpm2snpUrlPath
    rw [hd]
    exact ⟨rfl, rfl⟩
  · intro bs cs hd hp
    unfold nitroUrlPath tpm2snpUrlPath
    rw [hd]
    dsimp only [Option.bind]
    rw [hp]
    exact ⟨rfl, rfl⟩
  · intro bs cs p hd hp
    unfold nitroUrlPath tpm2snpUrlPath
    rw [hd]
    dsimp only [Option.bind]
    rw [hp]
    exact ⟨rfl, rfl⟩

/-- Witness for C10 at the invalid byte 0xFF: the decode fails and both
url_path functions panic (`none`). -/
theorem nitro_tpm2snp_url_path_panics_witness :
    utf8Decode [0xFF] = none ∧ nitroUrlPath [0xFF] = none ∧ tpm2snpUrlPath [0xFF] = none :=
  ⟨by decide,
   (nitro_tpm2snp_url_path_panics.1 [0xFF] (by decide)).1,
   (nitro_tpm2snp_url_path_panics.1 [0xFF] (by decide)).2⟩

end Enclave